import Mathlib

/-!
Verification development for the prism infrastructure-analysis backend.

The four analytical modules of the repository are embedded shallowly:

* `funding_optimizer_service.py` — risk scoring and the budget allocation
  optimizer (`optimize_budget`, `_calculate_risk_score`,
  `_calculate_road_risk_score`);
* `road_degradation_service.py` — the PCI degradation forecaster
  (`forecast_pci`, `calculate_degradation_rate`, `find_optimal_intervention`,
  the `years_to_critical` loop of `forecast_degradation`);
* `corridor_optimization_service.py` — corridor bundling
  (`find_bundle_opportunities`, `_create_bundle`) and the directional
  analysis (`analyze_directional_conditions`);
* `winter_resilience_service.py` — the winter vulnerability analyzer
  (`analyze_winter_vulnerability`).

Conventions of the embedding:

* Python floats are modelled as exact rationals (`ℚ`); Python `round(x, n)`
  (banker's rounding, ties to even) is `pyRound n x`.
* Optional / possibly-missing record fields are `Option` values; Python's
  truthiness-based defaulting `x or d` (which replaces `None`, `0`, `0.0` and
  `""` by the default) is modelled by the `orElse*` helpers below.
* Python's stable `list.sort(key=k)` / `key=k, reverse=True` is modelled by
  the stable insertion sort `stableSort` with the strict "must precede"
  test on keys; both produce the sequence ordered by the key with ties kept
  in input order.
* Functions that fetch records from the database / MCP cache are external
  collaborators; each embedded analysis takes the fetched record list as an
  argument, exactly as the Python body uses it after the fetch.
* `datetime.now().year` is passed explicitly as a `current_year` argument.
-/

/-- Python `round` to an integer: round half to even (banker's rounding). -/
def roundHalfEven (x : ℚ) : ℤ :=
  if x - (⌊x⌋ : ℚ) < 1/2 then ⌊x⌋
  else if 1/2 < x - (⌊x⌋ : ℚ) then ⌊x⌋ + 1
  else if ⌊x⌋ % 2 = 0 then ⌊x⌋ else ⌊x⌋ + 1

/-- Python `round(x, digits)` for a nonnegative digit count. -/
def pyRound (digits : ℕ) (x : ℚ) : ℚ :=
  (roundHalfEven (x * (10 : ℚ) ^ digits) : ℚ) / (10 : ℚ) ^ digits

theorem roundHalfEven_ge_floor (x : ℚ) : ⌊x⌋ ≤ roundHalfEven x := by
  unfold roundHalfEven
  split_ifs <;> omega

theorem roundHalfEven_le_floor_add_one (x : ℚ) : roundHalfEven x ≤ ⌊x⌋ + 1 := by
  unfold roundHalfEven
  split_ifs <;> omega

theorem roundHalfEven_nonneg {x : ℚ} (h : 0 ≤ x) : 0 ≤ roundHalfEven x := by
  have : (0 : ℤ) ≤ ⌊x⌋ := Int.le_floor.mpr (by exact_mod_cast h)
  have := roundHalfEven_ge_floor x
  omega

theorem roundHalfEven_le (x : ℚ) : (roundHalfEven x : ℚ) ≤ x + 1/2 := by
  unfold roundHalfEven
  have hf : (⌊x⌋ : ℚ) ≤ x := Int.floor_le x
  split_ifs with h1 h2 h3 <;> push_cast <;> linarith

theorem roundHalfEven_mono {x y : ℚ} (h : x ≤ y) :
    roundHalfEven x ≤ roundHalfEven y := by
  rcases eq_or_lt_of_le (Int.floor_le_floor h) with hf | hf
  · unfold roundHalfEven
    rw [← hf]
    split_ifs <;> first | omega | linarith
  · calc roundHalfEven x ≤ ⌊x⌋ + 1 := roundHalfEven_le_floor_add_one x
      _ ≤ ⌊y⌋ := by omega
      _ ≤ roundHalfEven y := roundHalfEven_ge_floor y

theorem pyRound_nonneg (d : ℕ) {x : ℚ} (h : 0 ≤ x) : 0 ≤ pyRound d x := by
  unfold pyRound
  have h10 : (0 : ℚ) < (10 : ℚ) ^ d := by positivity
  have := roundHalfEven_nonneg (x := x * (10 : ℚ) ^ d) (by positivity)
  have : (0 : ℚ) ≤ (roundHalfEven (x * (10 : ℚ) ^ d) : ℚ) := by exact_mod_cast this
  positivity

theorem pyRound_mono (d : ℕ) {x y : ℚ} (h : x ≤ y) : pyRound d x ≤ pyRound d y := by
  unfold pyRound
  have h10 : (0 : ℚ) < (10 : ℚ) ^ d := by positivity
  have := roundHalfEven_mono (x := x * (10 : ℚ) ^ d) (y := y * (10 : ℚ) ^ d)
    (by exact mul_le_mul_of_nonneg_right h (le_of_lt h10))
  have hc : ((roundHalfEven (x * (10 : ℚ) ^ d) : ℤ) : ℚ) ≤
      ((roundHalfEven (y * (10 : ℚ) ^ d) : ℤ) : ℚ) := by exact_mod_cast this
  gcongr

theorem pyRound_le (d : ℕ) (x : ℚ) :
    pyRound d x ≤ x + 1 / (2 * (10 : ℚ) ^ d) := by
  unfold pyRound
  have h10 : (0 : ℚ) < (10 : ℚ) ^ d := by positivity
  have h := roundHalfEven_le (x * (10 : ℚ) ^ d)
  rw [div_le_iff₀ h10]
  calc (roundHalfEven (x * (10 : ℚ) ^ d) : ℚ) ≤ x * (10 : ℚ) ^ d + 1/2 := h
    _ = (x + 1 / (2 * (10 : ℚ) ^ d)) * (10 : ℚ) ^ d := by field_simp; ring

/-- Stable insertion step: `x` is placed before the first element `y` that is
not required (by `lt y x`) to precede it. With `lt a b` meaning "`a` must
come strictly before `b`", this realises the placement rule of a stable
sort. -/
def stableInsert {α : Type} (lt : α → α → Bool) (x : α) : List α → List α
  | [] => [x]
  | y :: ys => if lt y x then y :: stableInsert lt x ys else x :: y :: ys

/-- Stable sort; models Python's stable `list.sort`.  For
`xs.sort(key=k)` use `lt a b := k a < k b`; for
`xs.sort(key=k, reverse=True)` use `lt a b := k b < k a`.  Either way ties
keep their input order, as in CPython. -/
def stableSort {α : Type} (lt : α → α → Bool) : List α → List α
  | [] => []
  | x :: xs => stableInsert lt x (stableSort lt xs)

theorem mem_stableInsert {α : Type} (lt : α → α → Bool) (x a : α) (l : List α) :
    a ∈ stableInsert lt x l ↔ a ∈ x :: l := by
  induction l with
  | nil => simp [stableInsert]
  | cons y ys ih =>
    simp only [stableInsert]
    split_ifs
    · simp only [List.mem_cons] at ih ⊢
      tauto
    · simp [List.mem_cons]

theorem mem_stableSort {α : Type} (lt : α → α → Bool) (a : α) (l : List α) :
    a ∈ stableSort lt l ↔ a ∈ l := by
  induction l with
  | nil => simp [stableSort]
  | cons x xs ih =>
    simp only [stableSort]
    rw [mem_stableInsert]
    simp only [List.mem_cons] at ih ⊢
    tauto

/-- Python `opt or default` for a numeric optional: `None` and `0` both fall
back to the default (`0` is falsy in Python). -/
def orElseQ (o : Option ℚ) (d : ℚ) : ℚ :=
  match o with
  | none => d
  | some x => if x = 0 then d else x

/-- Python `opt or default` for an integer optional (`None`/`0` falsy). -/
def orElseZ (o : Option ℤ) (d : ℤ) : ℤ :=
  match o with
  | none => d
  | some x => if x = 0 then d else x

/-- Python `opt or default` for a string optional (`None`/`""` falsy). -/
def orElseS (o : Option String) (d : String) : String :=
  match o with
  | none => d
  | some x => if x = "" then d else x

/-! ## Funding optimizer (`backend/funding_optimizer_service.py`)

`BridgeForOptimization` / `RoadSectionForOptimization` keep the fields that
`optimize_budget` reads (risk score, cost, risk/cost ratio, criticality
flags) plus a numeric id standing for the identity/geometry payload that the
optimizer only passes through. -/

/-- Bridge record as prepared by `get_bridges_for_optimization`. -/
structure BridgeForOptimization where
  id : ℕ
  risk_score : ℚ
  estimated_repair_cost : ℚ
  risk_cost_ratio : ℚ
  is_critical : Bool
  is_high_risk : Bool
deriving DecidableEq

/-- Road section record as prepared by `get_roads_for_optimization`. -/
structure RoadSectionForOptimization where
  id : ℕ
  risk_score : ℚ
  estimated_repair_cost : ℚ
  risk_cost_ratio : ℚ
  is_critical : Bool
  is_high_risk : Bool
deriving DecidableEq

/-- The warning strings `optimize_budget` can emit, by template. -/
inductive OptimizerWarning where
  | noInfrastructure
  | criticalBridgesUnfunded (count : ℕ) (totalCost : ℚ)
  | criticalRoadsUnfunded (count : ℕ) (totalCost : ℚ)
deriving DecidableEq

/-- Result of `optimize_budget` (`OptimizationResult` dataclass).  The
selected/unfunded lists hold the records themselves; the source converts
them to display dictionaries (`_bridge_to_dict` / `_road_to_dict`) without
changing `estimated_repair_cost`. -/
structure OptimizationResult where
  selected_bridges : List BridgeForOptimization
  selected_roads : List RoadSectionForOptimization
  total_bridges_selected : ℕ
  total_roads_selected : ℕ
  total_cost : ℚ
  budget_remaining : ℚ
  budget_utilization_percent : ℚ
  total_risk_reduction : ℚ
  risk_reduction_percent : ℚ
  avg_risk_score : ℚ
  critical_bridges_funded : ℕ
  critical_bridges_unfunded : ℕ
  critical_roads_funded : ℕ
  critical_roads_unfunded : ℕ
  unfunded_critical_bridges : List BridgeForOptimization
  unfunded_critical_roads : List RoadSectionForOptimization
  warnings : List OptimizerWarning
deriving DecidableEq

/-- The two critical-tier loops of `optimize_budget`: fund each affordable
item and record the unaffordable ones (returns `(selected, unfunded,
remaining_budget)`). -/
def fundTracking {α : Type} (cost : α → ℚ) : List α → ℚ → List α × List α × ℚ
  | [], rem => ([], [], rem)
  | x :: xs, rem =>
    if cost x ≤ rem then
      let r := fundTracking cost xs (rem - cost x)
      (x :: r.1, r.2.1, r.2.2)
    else
      let r := fundTracking cost xs rem
      (r.1, x :: r.2.1, r.2.2)

/-- A tagged pool item: `('bridge', b, rcr, cost)` / `('road', r, rcr, cost)`
tuples of the source, as a sum. -/
abbrev PoolItem := BridgeForOptimization ⊕ RoadSectionForOptimization

/-- Risk/cost ratio of a pool item (the sort key `x[2]`). -/
def poolRcr : PoolItem → ℚ
  | Sum.inl b => b.risk_cost_ratio
  | Sum.inr r => r.risk_cost_ratio

/-- Repair cost of a pool item (the tuple component `x[3]`). -/
def poolCost : PoolItem → ℚ
  | Sum.inl b => b.estimated_repair_cost
  | Sum.inr r => r.estimated_repair_cost

/-- The merged-pool greedy loop of `optimize_budget` (steps 2 and 3): walk
the pool in order, fund every affordable item, appending funded bridges and
roads to their respective selection lists. -/
def fundPool : List PoolItem → ℚ →
    List BridgeForOptimization × List RoadSectionForOptimization × ℚ
  | [], rem => ([], [], rem)
  | Sum.inl b :: xs, rem =>
    if b.estimated_repair_cost ≤ rem then
      let r := fundPool xs (rem - b.estimated_repair_cost)
      (b :: r.1, r.2.1, r.2.2)
    else fundPool xs rem
  | Sum.inr rd :: xs, rem =>
    if rd.estimated_repair_cost ≤ rem then
      let r := fundPool xs (rem - rd.estimated_repair_cost)
      (r.1, rd :: r.2.1, r.2.2)
    else fundPool xs rem

/-- Sort a list of bridges by `risk_cost_ratio` descending, stably
(`critical_bridges.sort(key=lambda x: x.risk_cost_ratio, reverse=True)`). -/
def sortBridgesByRcrDesc (l : List BridgeForOptimization) : List BridgeForOptimization :=
  stableSort (fun a b => decide (b.risk_cost_ratio < a.risk_cost_ratio)) l

/-- Sort a list of roads by `risk_cost_ratio` descending, stably. -/
def sortRoadsByRcrDesc (l : List RoadSectionForOptimization) : List RoadSectionForOptimization :=
  stableSort (fun a b => decide (b.risk_cost_ratio < a.risk_cost_ratio)) l

/-- Sort a tagged pool by `risk_cost_ratio` descending, stably
(`high_risk_items.sort(key=lambda x: x[2], reverse=True)`). -/
def sortPoolByRcrDesc (l : List PoolItem) : List PoolItem :=
  stableSort (fun a b => decide (poolRcr b < poolRcr a)) l

/-- `FundingOptimizerService.optimize_budget`, lines 435–606, starting from
the fetched+scored record lists (`get_bridges_for_optimization` /
`get_roads_for_optimization` are database-backed collaborators; passing
`include_roads=False` corresponds to `roads = []`). -/
def optimize_budget (bridges : List BridgeForOptimization)
    (roads : List RoadSectionForOptimization) (budget : ℚ)
    (include_medium_risk : Bool) : OptimizationResult :=
  if bridges = [] ∧ roads = [] then
    { selected_bridges := []
      selected_roads := []
      total_bridges_selected := 0
      total_roads_selected := 0
      total_cost := 0
      budget_remaining := budget
      budget_utilization_percent := 0
      total_risk_reduction := 0
      risk_reduction_percent := 0
      avg_risk_score := 0
      critical_bridges_funded := 0
      critical_bridges_unfunded := 0
      critical_roads_funded := 0
      critical_roads_unfunded := 0
      unfunded_critical_bridges := []
      unfunded_critical_roads := []
      warnings := [OptimizerWarning.noInfrastructure] }
  else
    let critical_bridges := sortBridgesByRcrDesc (bridges.filter (·.is_critical))
    let high_risk_bridges := sortBridgesByRcrDesc
      (bridges.filter (fun b => b.is_high_risk && !b.is_critical))
    let other_bridges := sortBridgesByRcrDesc (bridges.filter (fun b => !b.is_high_risk))
    let critical_roads := sortRoadsByRcrDesc (roads.filter (·.is_critical))
    let high_risk_roads := sortRoadsByRcrDesc
      (roads.filter (fun r => r.is_high_risk && !r.is_critical))
    let other_roads := sortRoadsByRcrDesc (roads.filter (fun r => !r.is_high_risk))
    -- 1. fund critical bridges, then critical roads
    let cb := fundTracking (·.estimated_repair_cost) critical_bridges budget
    let cr := fundTracking (·.estimated_repair_cost) critical_roads cb.2.2
    -- 2. merged high-risk pool sorted by RCR
    let high_risk_items := sortPoolByRcrDesc
      (high_risk_bridges.map Sum.inl ++ high_risk_roads.map Sum.inr)
    let hp := fundPool high_risk_items cr.2.2
    -- 3. optional medium-risk pool
    let other_items := sortPoolByRcrDesc
      (other_bridges.map Sum.inl ++ other_roads.map Sum.inr)
    let op := if include_medium_risk then fundPool other_items hp.2.2
      else ([], [], hp.2.2)
    let selected_bridges := cb.1 ++ hp.1 ++ op.1
    let selected_roads := cr.1 ++ hp.2.1 ++ op.2.1
    let remaining_budget := op.2.2
    let total_cost := budget - remaining_budget
    let total_risk_reduction :=
      (selected_bridges.map (·.risk_score)).sum + (selected_roads.map (·.risk_score)).sum
    let max_possible_reduction :=
      (bridges.map (·.risk_score)).sum + (roads.map (·.risk_score)).sum
    let n_selected := selected_bridges.length + selected_roads.length
    { selected_bridges := selected_bridges
      selected_roads := selected_roads
      total_bridges_selected := selected_bridges.length
      total_roads_selected := selected_roads.length
      total_cost := total_cost
      budget_remaining := remaining_budget
      budget_utilization_percent :=
        pyRound 1 (if 0 < budget then total_cost / budget * 100 else 0)
      total_risk_reduction := total_risk_reduction
      risk_reduction_percent :=
        pyRound 1 (if 0 < max_possible_reduction then
          total_risk_reduction / max_possible_reduction * 100 else 0)
      avg_risk_score :=
        pyRound 1 (if n_selected ≠ 0 then total_risk_reduction / n_selected else 0)
      critical_bridges_funded := (selected_bridges.filter (·.is_critical)).length
      critical_bridges_unfunded := cb.2.1.length
      critical_roads_funded := (selected_roads.filter (·.is_critical)).length
      critical_roads_unfunded := cr.2.1.length
      unfunded_critical_bridges := cb.2.1
      unfunded_critical_roads := cr.2.1
      warnings :=
        (if cb.2.1 ≠ [] then
          [OptimizerWarning.criticalBridgesUnfunded cb.2.1.length
            ((cb.2.1.map (·.estimated_repair_cost)).sum)] else []) ++
        (if cr.2.1 ≠ [] then
          [OptimizerWarning.criticalRoadsUnfunded cr.2.1.length
            ((cr.2.1.map (·.estimated_repair_cost)).sum)] else []) }

theorem fundTracking_spec {α : Type} (cost : α → ℚ) (l : List α) (rem : ℚ)
    (h0 : 0 ≤ rem) (hc : ∀ x ∈ l, 0 ≤ cost x) :
    0 ≤ (fundTracking cost l rem).2.2 ∧ (fundTracking cost l rem).2.2 ≤ rem ∧
    ∀ x ∈ (fundTracking cost l rem).1, cost x ≤ rem := by
  induction l generalizing rem with
  | nil => exact ⟨h0, le_refl rem, by simp [fundTracking]⟩
  | cons x xs ih =>
    simp only [fundTracking]
    by_cases hx : cost x ≤ rem
    · rw [if_pos hx]
      have hx0 : 0 ≤ cost x := hc x (List.mem_cons_self x xs)
      have h0' : 0 ≤ rem - cost x := by linarith
      obtain ⟨r0, rle, rsel⟩ := ih (rem - cost x) h0'
        (fun y hy => hc y (List.mem_cons_of_mem x hy))
      refine ⟨r0, by linarith, ?_⟩
      intro y hy
      rcases List.mem_cons.mp hy with h | h
      · exact h ▸ hx
      · exact (rsel y h).trans (by linarith)
    · rw [if_neg hx]
      obtain ⟨r0, rle, rsel⟩ := ih rem h0 (fun y hy => hc y (List.mem_cons_of_mem x hy))
      exact ⟨r0, rle, rsel⟩

theorem fundPool_spec (l : List PoolItem) (rem : ℚ)
    (h0 : 0 ≤ rem) (hc : ∀ x ∈ l, 0 ≤ poolCost x) :
    0 ≤ (fundPool l rem).2.2 ∧ (fundPool l rem).2.2 ≤ rem ∧
    (∀ b ∈ (fundPool l rem).1, b.estimated_repair_cost ≤ rem) ∧
    (∀ r ∈ (fundPool l rem).2.1, r.estimated_repair_cost ≤ rem) := by
  induction l generalizing rem with
  | nil => exact ⟨h0, le_refl rem, by simp [fundPool], by simp [fundPool]⟩
  | cons x xs ih =>
    cases x with
    | inl b =>
      simp only [fundPool]
      by_cases hx : b.estimated_repair_cost ≤ rem
      · rw [if_pos hx]
        have hx0 : 0 ≤ b.estimated_repair_cost := hc (Sum.inl b) (List.mem_cons_self _ xs)
        obtain ⟨r0, rle, rb, rr⟩ := ih (rem - b.estimated_repair_cost) (by linarith)
          (fun y hy => hc y (List.mem_cons_of_mem _ hy))
        refine ⟨r0, by linarith, ?_, fun r hr => (rr r hr).trans (by linarith)⟩
        intro y hy
        rcases List.mem_cons.mp hy with h | h
        · exact h ▸ hx
        · exact (rb y h).trans (by linarith)
      · rw [if_neg hx]
        exact ih rem h0 (fun y hy => hc y (List.mem_cons_of_mem _ hy))
    | inr rd =>
      simp only [fundPool]
      by_cases hx : rd.estimated_repair_cost ≤ rem
      · rw [if_pos hx]
        have hx0 : 0 ≤ rd.estimated_repair_cost := hc (Sum.inr rd) (List.mem_cons_self _ xs)
        obtain ⟨r0, rle, rb, rr⟩ := ih (rem - rd.estimated_repair_cost) (by linarith)
          (fun y hy => hc y (List.mem_cons_of_mem _ hy))
        refine ⟨r0, by linarith, fun b hb => (rb b hb).trans (by linarith), ?_⟩
        intro y hy
        rcases List.mem_cons.mp hy with h | h
        · exact h ▸ hx
        · exact (rr y h).trans (by linarith)
      · rw [if_neg hx]
        exact ih rem h0 (fun y hy => hc y (List.mem_cons_of_mem _ hy))

/-- C1.  For every budget ≥ 0 and every population of scored segments with
nonnegative estimated repair costs, `optimize_budget` satisfies
`total_cost = budget − budget_remaining`, `total_cost ≤ budget`, and every
selected bridge or road has `estimated_repair_cost ≤ budget`. -/
theorem optimize_budget_budget_conservation
    (bridges : List BridgeForOptimization) (roads : List RoadSectionForOptimization)
    (budget : ℚ) (include_medium_risk : Bool)
    (hb : 0 ≤ budget)
    (hcb : ∀ b ∈ bridges, 0 ≤ b.estimated_repair_cost)
    (hcr : ∀ r ∈ roads, 0 ≤ r.estimated_repair_cost) :
    (optimize_budget bridges roads budget include_medium_risk).total_cost
      = budget - (optimize_budget bridges roads budget include_medium_risk).budget_remaining
    ∧ (optimize_budget bridges roads budget include_medium_risk).total_cost ≤ budget
    ∧ (∀ b ∈ (optimize_budget bridges roads budget include_medium_risk).selected_bridges,
        b.estimated_repair_cost ≤ budget)
    ∧ (∀ r ∈ (optimize_budget bridges roads budget include_medium_risk).selected_roads,
        r.estimated_repair_cost ≤ budget) := by
  by_cases hemp : bridges = [] ∧ roads = []
  · simp only [optimize_budget, if_pos hemp]
    exact ⟨by ring, by simpa using hb, by simp, by simp⟩
  · set CB := sortBridgesByRcrDesc (bridges.filter (·.is_critical)) with hCBdef
    set CR := sortRoadsByRcrDesc (roads.filter (·.is_critical)) with hCRdef
    set HI := sortPoolByRcrDesc
      ((sortBridgesByRcrDesc (bridges.filter (fun b => b.is_high_risk && !b.is_critical))).map Sum.inl
        ++ (sortRoadsByRcrDesc (roads.filter (fun r => r.is_high_risk && !r.is_critical))).map Sum.inr)
      with hHIdef
    set OI := sortPoolByRcrDesc
      ((sortBridgesByRcrDesc (bridges.filter (fun b => !b.is_high_risk))).map Sum.inl
        ++ (sortRoadsByRcrDesc (roads.filter (fun r => !r.is_high_risk))).map Sum.inr)
      with hOIdef
    have hCBc : ∀ b ∈ CB, 0 ≤ b.estimated_repair_cost := by
      intro b hbm
      rw [hCBdef, sortBridgesByRcrDesc, mem_stableSort] at hbm
      exact hcb b (List.mem_filter.mp hbm).1
    have hCRc : ∀ r ∈ CR, 0 ≤ r.estimated_repair_cost := by
      intro r hrm
      rw [hCRdef, sortRoadsByRcrDesc, mem_stableSort] at hrm
      exact hcr r (List.mem_filter.mp hrm).1
    have poolc : ∀ (pb : List BridgeForOptimization) (pr : List RoadSectionForOptimization),
        (∀ b ∈ pb, b ∈ bridges) → (∀ r ∈ pr, r ∈ roads) →
        ∀ x ∈ sortPoolByRcrDesc (pb.map Sum.inl ++ pr.map Sum.inr), 0 ≤ poolCost x := by
      intro pb pr hpb hpr x hxm
      rw [sortPoolByRcrDesc, mem_stableSort, List.mem_append] at hxm
      rcases hxm with h | h
      · obtain ⟨b, hbm, rfl⟩ := List.mem_map.mp h
        exact hcb b (hpb b hbm)
      · obtain ⟨r, hrm, rfl⟩ := List.mem_map.mp h
        exact hcr r (hpr r hrm)
    have hHIc : ∀ x ∈ HI, 0 ≤ poolCost x := by
      rw [hHIdef]
      refine poolc _ _ ?_ ?_
      · intro b hbm
        rw [sortBridgesByRcrDesc, mem_stableSort] at hbm
        exact (List.mem_filter.mp hbm).1
      · intro r hrm
        rw [sortRoadsByRcrDesc, mem_stableSort] at hrm
        exact (List.mem_filter.mp hrm).1
    have hOIc : ∀ x ∈ OI, 0 ≤ poolCost x := by
      rw [hOIdef]
      refine poolc _ _ ?_ ?_
      · intro b hbm
        rw [sortBridgesByRcrDesc, mem_stableSort] at hbm
        exact (List.mem_filter.mp hbm).1
      · intro r hrm
        rw [sortRoadsByRcrDesc, mem_stableSort] at hrm
        exact (List.mem_filter.mp hrm).1
    set cb := fundTracking (·.estimated_repair_cost) CB budget with hcbdef
    set cr := fundTracking (·.estimated_repair_cost) CR cb.2.2 with hcrdef
    set hp := fundPool HI cr.2.2 with hhpdef
    set opp := (if include_medium_risk then fundPool OI hp.2.2
      else ([], [], hp.2.2)) with hoppdef
    obtain ⟨hcb0, hcble, hcbsel⟩ := fundTracking_spec (·.estimated_repair_cost) CB budget hb hCBc
    obtain ⟨hcr0, hcrle, hcrsel⟩ :=
      fundTracking_spec (·.estimated_repair_cost) CR cb.2.2 hcb0 hCRc
    obtain ⟨hhp0, hhple, hhpb, hhpr⟩ := fundPool_spec HI cr.2.2 hcr0 hHIc
    have hopspec : 0 ≤ opp.2.2 ∧ opp.2.2 ≤ hp.2.2 ∧
        (∀ b ∈ opp.1, b.estimated_repair_cost ≤ hp.2.2) ∧
        (∀ r ∈ opp.2.1, r.estimated_repair_cost ≤ hp.2.2) := by
      by_cases himr : include_medium_risk = true
      · have : opp = fundPool OI hp.2.2 := by rw [hoppdef, himr, if_pos rfl]
        rw [this]
        exact fundPool_spec OI hp.2.2 hhp0 hOIc
      · have : opp = ([], [], hp.2.2) := by
          rw [hoppdef, if_neg (by simpa using himr)]
        rw [this]
        exact ⟨hhp0, le_refl _, by simp, by simp⟩
    obtain ⟨hop0, hople, hopb, hopr⟩ := hopspec
    have hrem_le : opp.2.2 ≤ budget := by linarith
    refine ⟨?_, ?_, ?_, ?_⟩
    · show (optimize_budget bridges roads budget include_medium_risk).total_cost
        = budget - (optimize_budget bridges roads budget include_medium_risk).budget_remaining
      simp only [optimize_budget, if_neg hemp]
    · have : (optimize_budget bridges roads budget include_medium_risk).total_cost
          = budget - opp.2.2 := by
        simp only [optimize_budget, if_neg hemp]
      rw [this]
      linarith
    · have : (optimize_budget bridges roads budget include_medium_risk).selected_bridges
          = cb.1 ++ hp.1 ++ opp.1 := by
        simp only [optimize_budget, if_neg hemp]
      rw [this]
      intro b hbm
      rw [List.mem_append, List.mem_append] at hbm
      rcases hbm with (h | h) | h
      · exact hcbsel b h
      · exact (hhpb b h).trans (by linarith)
      · exact (hopb b h).trans (by linarith)
    · have : (optimize_budget bridges roads budget include_medium_risk).selected_roads
          = cr.1 ++ hp.2.1 ++ opp.2.1 := by
        simp only [optimize_budget, if_neg hemp]
      rw [this]
      intro r hrm
      rw [List.mem_append, List.mem_append] at hrm
      rcases hrm with (h | h) | h
      · exact (hcrsel r h).trans (by linarith)
      · exact (hhpr r h).trans (by linarith)
      · exact (hopr r h).trans (by linarith)

/-- Witness for C1 at a concrete population: one critical bridge, one
high-risk road, a ten-million budget. -/
theorem optimize_budget_budget_conservation_witness :
    (optimize_budget [⟨1, 90, 4000000, 22, true, true⟩] [⟨2, 75, 1700000, 44, false, true⟩]
        10000000 false).total_cost
      = 10000000 - (optimize_budget [⟨1, 90, 4000000, 22, true, true⟩]
          [⟨2, 75, 1700000, 44, false, true⟩] 10000000 false).budget_remaining
    ∧ (optimize_budget [⟨1, 90, 4000000, 22, true, true⟩] [⟨2, 75, 1700000, 44, false, true⟩]
        10000000 false).total_cost ≤ 10000000
    ∧ (∀ b ∈ (optimize_budget [⟨1, 90, 4000000, 22, true, true⟩]
          [⟨2, 75, 1700000, 44, false, true⟩] 10000000 false).selected_bridges,
        b.estimated_repair_cost ≤ 10000000)
    ∧ (∀ r ∈ (optimize_budget [⟨1, 90, 4000000, 22, true, true⟩]
          [⟨2, 75, 1700000, 44, false, true⟩] 10000000 false).selected_roads,
        r.estimated_repair_cost ≤ 10000000) :=
  optimize_budget_budget_conservation
    [⟨1, 90, 4000000, 22, true, true⟩] [⟨2, 75, 1700000, 44, false, true⟩]
    10000000 false (by norm_num)
    (by intro b hb; simp only [List.mem_singleton] at hb; subst hb; norm_num)
    (by intro r hr; simp only [List.mem_singleton] at hr; subst hr; norm_num)

/-- Funding the road-only tail of a pool is the tracking loop restricted to
its selections. -/
theorem fundPool_inr_eq (CR : List RoadSectionForOptimization) (rem : ℚ) :
    fundPool (CR.map Sum.inr) rem
      = ([], (fundTracking (·.estimated_repair_cost) CR rem).1,
          (fundTracking (·.estimated_repair_cost) CR rem).2.2) := by
  induction CR generalizing rem with
  | nil => simp [fundPool, fundTracking]
  | cons r rs ih =>
    simp only [List.map_cons, fundPool, fundTracking]
    by_cases hx : r.estimated_repair_cost ≤ rem
    · rw [if_pos hx, if_pos hx, ih]
    · rw [if_neg hx, if_neg hx, ih]

/-- A pool listing all bridges before all roads funds exactly as the two
sequential tracking loops do (pool skipping keeps the same selections and
the same remaining budget; only the unfunded bookkeeping differs). -/
theorem fundPool_bridges_then_roads (CB : List BridgeForOptimization)
    (CR : List RoadSectionForOptimization) (rem : ℚ) :
    fundPool (CB.map Sum.inl ++ CR.map Sum.inr) rem
      = ((fundTracking (·.estimated_repair_cost) CB rem).1,
         (fundTracking (·.estimated_repair_cost) CR
            (fundTracking (·.estimated_repair_cost) CB rem).2.2).1,
         (fundTracking (·.estimated_repair_cost) CR
            (fundTracking (·.estimated_repair_cost) CB rem).2.2).2.2) := by
  induction CB generalizing rem with
  | nil => simpa using fundPool_inr_eq CR rem
  | cons b bs ih =>
    simp only [List.map_cons, List.cons_append, fundPool, fundTracking, List.append_eq]
    by_cases hx : b.estimated_repair_cost ≤ rem
    · rw [if_pos hx, if_pos hx, ih]
    · rw [if_neg hx, if_neg hx, ih]

/-- The critical tier as claim C2 describes it: one pool merging critical
bridges and critical roads, sorted by `risk_cost_ratio` descending, funded
greedily.  This is a claim-side definition, written from the spec's words,
for comparison with the code's behaviour. -/
def criticalTierSpecPool (bridges : List BridgeForOptimization)
    (roads : List RoadSectionForOptimization) (budget : ℚ) :
    List BridgeForOptimization × List RoadSectionForOptimization × ℚ :=
  fundPool (sortPoolByRcrDesc
    ((bridges.filter (·.is_critical)).map Sum.inl
      ++ (roads.filter (·.is_critical)).map Sum.inr)) budget

/-- Counterexample to C2: a critical road with risk/cost ratio 50 and a
critical bridge with ratio 9, each costing 10 against a budget of 10.  A
merged critical pool sorted by ratio would fund the road (as
`criticalTierSpecPool` does); `optimize_budget` funds the bridge and leaves
the road as unfunded-critical, because critical bridges are processed
before any critical road. -/
theorem optimize_budget_critical_tier_counterexample :
    (optimize_budget [⟨1, 90, 10, 9, true, true⟩] [⟨2, 90, 10, 50, true, true⟩]
        10 false).selected_roads = []
    ∧ (optimize_budget [⟨1, 90, 10, 9, true, true⟩] [⟨2, 90, 10, 50, true, true⟩]
        10 false).unfunded_critical_roads = [⟨2, 90, 10, 50, true, true⟩]
    ∧ (optimize_budget [⟨1, 90, 10, 9, true, true⟩] [⟨2, 90, 10, 50, true, true⟩]
        10 false).selected_bridges = [⟨1, 90, 10, 9, true, true⟩]
    ∧ (criticalTierSpecPool [⟨1, 90, 10, 9, true, true⟩] [⟨2, 90, 10, 50, true, true⟩]
        10).2.1 = [⟨2, 90, 10, 50, true, true⟩]
    ∧ (9 : ℚ) < 50 := by
  refine ⟨?_, ?_, ?_, ?_, by norm_num⟩ <;>
    norm_num [optimize_budget, criticalTierSpecPool, sortBridgesByRcrDesc,
      sortRoadsByRcrDesc, sortPoolByRcrDesc, stableSort, stableInsert,
      poolRcr, poolCost, fundTracking, fundPool]

/-- C2 as amended: in `optimize_budget` the critical tier is *not* one
merged pool; critical bridges (sorted by risk/cost ratio descending) are
all considered before any critical road (likewise sorted), i.e. the two
critical loops behave exactly like a greedy pass over the concatenation
bridges-then-roads. -/
theorem optimize_budget_critical_tier_order (bridges : List BridgeForOptimization)
    (roads : List RoadSectionForOptimization) (budget : ℚ) :
    fundPool ((sortBridgesByRcrDesc (bridges.filter (·.is_critical))).map Sum.inl
        ++ (sortRoadsByRcrDesc (roads.filter (·.is_critical))).map Sum.inr) budget
      = ((fundTracking (·.estimated_repair_cost)
            (sortBridgesByRcrDesc (bridges.filter (·.is_critical))) budget).1,
         (fundTracking (·.estimated_repair_cost)
            (sortRoadsByRcrDesc (roads.filter (·.is_critical)))
            (fundTracking (·.estimated_repair_cost)
              (sortBridgesByRcrDesc (bridges.filter (·.is_critical))) budget).2.2).1,
         (fundTracking (·.estimated_repair_cost)
            (sortRoadsByRcrDesc (roads.filter (·.is_critical)))
            (fundTracking (·.estimated_repair_cost)
              (sortBridgesByRcrDesc (bridges.filter (·.is_critical))) budget).2.2).2.2) :=
  fundPool_bridges_then_roads _ _ _

/-- `CONDITION_RISK_SCORES.get(condition, 50)`: the condition-label base
risk lookup of `FundingOptimizerService` (default 50 for unknown keys). -/
def CONDITION_RISK_SCORES (condition : String) : ℚ :=
  if condition = "Critical" then 90
  else if condition = "Poor" then 72
  else if condition = "Fair" then 45
  else if condition = "Good" then 20
  else 50

/-- `FundingOptimizerService._calculate_risk_score` (bridge risk), lines
360–387.  `year_built` is the year parsed from the leading four characters
(`none` when the field is missing, empty/falsy, or unparsable);
`datetime.now().year` is the explicit `current_year`; `condition_index`
is skipped when it is `None` *or* `0` (Python truthiness). -/
def calculate_risk_score (condition : String) (year_built : Option ℤ)
    (condition_index : Option ℚ) (current_year : ℤ) : ℚ :=
  let base0 : ℚ := CONDITION_RISK_SCORES condition
  let base1 : ℚ :=
    match year_built with
    | none => base0
    | some year =>
      if 30 < current_year - year then
        base0 + min 20 (((current_year - year - 30 : ℤ) : ℚ) * (3/10))
      else base0
  let base2 : ℚ :=
    match condition_index with
    | none => base1
    | some idx => if idx = 0 then base1 else max base1 (100 - idx)
  min 100 (max 0 base2)

/-- Bridge risk score as claim C3 words it: first the larger of the label
base score and `100 − condition_index` (when present), then the age
penalty, then the clamp.  Claim-side definition, written from the spec's
words, for comparison with the code. -/
def riskScoreClaimedC3 (condition : String) (year_built : Option ℤ)
    (condition_index : Option ℚ) (current_year : ℤ) : ℚ :=
  let base : ℚ := CONDITION_RISK_SCORES condition
  let base : ℚ :=
    match condition_index with
    | none => base
    | some idx => max base (100 - idx)
  let penalty : ℚ :=
    match year_built with
    | none => 0
    | some year =>
      if 30 < current_year - year then
        min 20 (((current_year - year - 30 : ℤ) : ℚ) * (3/10))
      else 0
  min 100 (max 0 (base + penalty))

/-- Counterexample to C3: a `Good` bridge built in 1926 (age 100 in 2026,
age penalty capped at +20) with condition index 50.  The claimed order
(max first, then penalty) gives `max(20,50) + 20 = 70`; the code adds the
penalty to the label score first and only then takes the max,
`max(20+20, 50) = 50`. -/
theorem calculate_risk_score_counterexample :
    calculate_risk_score "Good" (some 1926) (some 50) 2026 = 50
    ∧ riskScoreClaimedC3 "Good" (some 1926) (some 50) 2026 = 70
    ∧ (50 : ℚ) ≠ 70 := by
  refine ⟨?_, ?_, by norm_num⟩ <;>
    · simp [calculate_risk_score, riskScoreClaimedC3, CONDITION_RISK_SCORES]
      norm_num

/-- C3 as amended: before clamping, the age penalty (0.3 per year beyond
30, capped at +20) is added to the condition-label base score first, and
the result is then maxed with `100 − condition_index` — and only when the
index is present and nonzero (a zero index is Python-falsy and ignored). -/
theorem calculate_risk_score_closed_form (condition : String)
    (year_built : Option ℤ) (condition_index : Option ℚ) (current_year : ℤ) :
    calculate_risk_score condition year_built condition_index current_year
      = min 100 (max 0
          (match condition_index with
           | none => CONDITION_RISK_SCORES condition
               + (match year_built with
                  | none => 0
                  | some year =>
                    if 30 < current_year - year then
                      min 20 (((current_year - year - 30 : ℤ) : ℚ) * (3/10))
                    else 0)
           | some idx =>
             if idx = 0 then CONDITION_RISK_SCORES condition
               + (match year_built with
                  | none => 0
                  | some year =>
                    if 30 < current_year - year then
                      min 20 (((current_year - year - 30 : ℤ) : ℚ) * (3/10))
                    else 0)
             else max (CONDITION_RISK_SCORES condition
               + (match year_built with
                  | none => 0
                  | some year =>
                    if 30 < current_year - year then
                      min 20 (((current_year - year - 30 : ℤ) : ℚ) * (3/10))
                    else 0)) (100 - idx))) := by
  unfold calculate_risk_score
  rcases year_built with _ | year <;> rcases condition_index with _ | idx <;>
    simp only [] <;> (try split_ifs) <;> ring_nf

/-- A normalized road-condition record: the field set shared by the cached
`CachedRoadCondition` rows and the road dictionaries the degradation,
corridor and winter services consume. -/
structure RoadConditionRecord where
  highway : Option String
  direction : Option String
  section_from : Option String
  section_to : Option String
  km_start : Option ℚ
  km_end : Option ℚ
  pci : Option ℚ
  condition : Option String
  dmi : Option ℚ
  iri : Option ℚ
  pavement_type : Option String
  functional_class : Option String
  aadt : Option ℤ
  pavement_age : Option ℤ
  province : Option String
  lat : Option ℚ
  lng : Option ℚ
deriving DecidableEq

/-- The IRI/DMI/AADT increments and final clamp of
`_calculate_road_risk_score` (lines 269–290), applied to a running base
score. -/
def roadScoreAdjustments (road : RoadConditionRecord) (base : ℚ) : ℚ :=
  let b1 :=
    match road.iri with
    | none => base
    | some i => if 4 < i then base + 15 else if 5/2 < i then base + 8 else base
  let b2 :=
    match road.dmi with
    | none => b1
    | some d => if 70 < d then b1 + 10 else if 50 < d then b1 + 5 else b1
  let b3 :=
    match road.aadt with
    | none => b2
    | some a => if 50000 < a then b2 + 10 else if 20000 < a then b2 + 5 else b2
  min 100 (max 0 b3)

/-- `FundingOptimizerService._calculate_road_risk_score`, lines 258–290:
label base score, maxed with `100 − PCI` when PCI is present, then the
IRI/DMI/AADT increments and the clamp to [0, 100]. -/
def calculate_road_risk_score (road : RoadConditionRecord) : ℚ :=
  let base_score := CONDITION_RISK_SCORES (orElseS road.condition "Unknown")
  let base_score :=
    match road.pci with
    | none => base_score
    | some p => max base_score (100 - p)
  roadScoreAdjustments road base_score

theorem roadScoreAdjustments_mono (road : RoadConditionRecord) {b₁ b₂ : ℚ}
    (h : b₁ ≤ b₂) : roadScoreAdjustments road b₁ ≤ roadScoreAdjustments road b₂ := by
  unfold roadScoreAdjustments
  rcases road.iri with _ | i <;> rcases road.dmi with _ | d <;>
    rcases road.aadt with _ | a <;> simp only [] <;> (try split_ifs) <;>
    exact min_le_min (le_refl _) (max_le_max (le_refl _) (by linarith))

/-- The condition labels in the order claim C4 compares them
(`Good < Fair < Poor < Critical`); `none` for any other label. -/
def conditionSeverityRank (c : String) : Option ℕ :=
  if c = "Good" then some 0
  else if c = "Fair" then some 1
  else if c = "Poor" then some 2
  else if c = "Critical" then some 3
  else none

theorem conditionSeverityRank_cases {c : String} {i : ℕ}
    (h : conditionSeverityRank c = some i) :
    (c = "Good" ∧ i = 0) ∨ (c = "Fair" ∧ i = 1) ∨ (c = "Poor" ∧ i = 2)
      ∨ (c = "Critical" ∧ i = 3) := by
  unfold conditionSeverityRank at h
  split_ifs at h with h1 h2 h3 h4 <;> simp_all

/-- CONDITION_RISK_SCORES is increasing along the severity ranking. -/
theorem CONDITION_RISK_SCORES_mono {c₁ c₂ : String} {i₁ i₂ : ℕ}
    (h₁ : conditionSeverityRank c₁ = some i₁)
    (h₂ : conditionSeverityRank c₂ = some i₂) (hlt : i₂ < i₁) :
    CONDITION_RISK_SCORES c₂ ≤ CONDITION_RISK_SCORES c₁ := by
  rcases conditionSeverityRank_cases h₁ with ⟨rfl, rfl⟩ | ⟨rfl, rfl⟩ | ⟨rfl, rfl⟩ | ⟨rfl, rfl⟩ <;>
    rcases conditionSeverityRank_cases h₂ with ⟨rfl, rfl⟩ | ⟨rfl, rfl⟩ | ⟨rfl, rfl⟩ | ⟨rfl, rfl⟩ <;>
    simp_all [CONDITION_RISK_SCORES] <;> norm_num

/-- C4.  For two road records identical except for a strictly lower PCI, or
identical except for a strictly worse condition label (in the order
Good < Fair < Poor < Critical), the worse record's risk score is ≥ the
other's. -/
theorem road_risk_score_monotone (road : RoadConditionRecord) :
    (∀ p₁ p₂ : ℚ, p₁ < p₂ →
      calculate_road_risk_score { road with pci := some p₂ }
        ≤ calculate_road_risk_score { road with pci := some p₁ })
    ∧ (∀ (c₁ c₂ : String) (i₁ i₂ : ℕ),
        conditionSeverityRank c₁ = some i₁ → conditionSeverityRank c₂ = some i₂ →
        i₂ < i₁ →
        calculate_road_risk_score { road with condition := some c₂ }
          ≤ calculate_road_risk_score { road with condition := some c₁ }) := by
  constructor
  · intro p₁ p₂ hlt
    unfold calculate_road_risk_score
    simp only []
    have : roadScoreAdjustments { road with pci := some p₂ }
        = roadScoreAdjustments { road with pci := some p₁ } := rfl
    rw [this]
    exact roadScoreAdjustments_mono _
      (max_le_max (le_refl _) (by linarith))
  · intro c₁ c₂ i₁ i₂ h₁ h₂ hlt
    unfold calculate_road_risk_score
    simp only []
    have hradj : roadScoreAdjustments { road with condition := some c₂ }
        = roadScoreAdjustments { road with condition := some c₁ } := rfl
    have hne₁ : c₁ ≠ "" := by
      rcases conditionSeverityRank_cases h₁ with ⟨rfl, _⟩ | ⟨rfl, _⟩ | ⟨rfl, _⟩ | ⟨rfl, _⟩ <;>
        simp
    have hne₂ : c₂ ≠ "" := by
      rcases conditionSeverityRank_cases h₂ with ⟨rfl, _⟩ | ⟨rfl, _⟩ | ⟨rfl, _⟩ | ⟨rfl, _⟩ <;>
        simp
    have horel : ∀ c : String, c ≠ "" → orElseS (some c) "Unknown" = c := by
      intro c hc
      simp [orElseS, hc]
    rw [hradj, horel c₁ hne₁, horel c₂ hne₂]
    have hbase := CONDITION_RISK_SCORES_mono h₁ h₂ hlt
    apply roadScoreAdjustments_mono
    rcases road.pci with _ | p
    · exact hbase
    · exact max_le_max hbase (le_refl _)

/-- A concrete road record for the C4 witness: every field absent except
PCI, condition and AADT. -/
def c4WitnessRoad (p : Option ℚ) (c : Option String) : RoadConditionRecord :=
  ⟨none, none, none, none, none, none, p, c, none, none, none, none,
    some 25000, none, none, none, none⟩

/-- Witness for C4: a PCI drop from 60 to 50 and a label change from Fair
to Poor, on an otherwise fixed record, never lower the risk score. -/
theorem road_risk_score_monotone_witness :
    calculate_road_risk_score { c4WitnessRoad (some 60) (some "Fair") with pci := some 60 }
        ≤ calculate_road_risk_score { c4WitnessRoad (some 60) (some "Fair") with pci := some 50 }
    ∧ calculate_road_risk_score { c4WitnessRoad (some 55) (some "Fair") with condition := some "Fair" }
        ≤ calculate_road_risk_score { c4WitnessRoad (some 55) (some "Fair") with condition := some "Poor" } :=
  ⟨(road_risk_score_monotone (c4WitnessRoad (some 60) (some "Fair"))).1 50 60 (by norm_num),
   (road_risk_score_monotone (c4WitnessRoad (some 55) (some "Fair"))).2
      "Poor" "Fair" 2 1 (by simp [conditionSeverityRank]) (by simp [conditionSeverityRank])
      (by norm_num)⟩

/-! ## Degradation forecaster (`backend/road_degradation_service.py`) -/

/-- `ClimateZone` enum. -/
inductive ClimateZone where
  | arctic
  | cold
  | moderate
  | mild
  | mountain
deriving DecidableEq

/-- `CLIMATE_DEGRADATION_FACTORS`. -/
def CLIMATE_DEGRADATION_FACTORS : ClimateZone → ℚ
  | ClimateZone.arctic => 3/2
  | ClimateZone.cold => 13/10
  | ClimateZone.moderate => 1
  | ClimateZone.mild => 4/5
  | ClimateZone.mountain => 7/5

/-- `PAVEMENT_BASE_DEGRADATION.get(pavement_type, -5.0)`. -/
def PAVEMENT_BASE_DEGRADATION (pt : String) : ℚ :=
  if pt = "AC" then -9/2
  else if pt = "PCC" then -5/2
  else if pt = "COMP" then -7/2
  else if pt = "ST" then -6
  else if pt = "GRAVEL" then -8
  else -5

/-- `get_traffic_factor` (the `TRAFFIC_DEGRADATION_FACTORS` threshold walk;
`None` means 15000). -/
def get_traffic_factor (aadt : Option ℤ) : ℚ :=
  let a := aadt.getD 15000
  if a < 5000 then 4/5
  else if a < 15000 then 1
  else if a < 30000 then 13/10
  else if a < 50000 then 8/5
  else if a < 100000 then 2
  else 5/2

/-- `get_pci_acceleration_factor`. -/
def get_pci_acceleration_factor (pci : ℚ) : ℚ :=
  if 70 ≤ pci then 1
  else if 60 ≤ pci then 6/5
  else if 50 ≤ pci then 3/2
  else if 40 ≤ pci then 9/5
  else 11/5

/-- `calculate_degradation_rate`, lines 168–213 (returns the annual PCI
change, clamped into [-12, -2]). -/
def calculate_degradation_rate (current_pci : ℚ) (pavement_type : String)
    (climate_zone : ClimateZone) (aadt : Option ℤ) (pavement_age : Option ℤ)
    (maintenance_score : ℚ) : ℚ :=
  let base_rate := PAVEMENT_BASE_DEGRADATION pavement_type
  let climate_factor := CLIMATE_DEGRADATION_FACTORS climate_zone
  let traffic_factor := get_traffic_factor aadt
  let pci_factor := get_pci_acceleration_factor current_pci
  let age_factor : ℚ :=
    match pavement_age with
    | none => 1
    | some age =>
      if 20 < age then 13/10
      else if 15 < age then 23/20
      else if 10 < age then 1
      else 9/10
  let final_rate := base_rate * climate_factor * traffic_factor * pci_factor
    * age_factor * maintenance_score
  max (-12) (min (-2) final_rate)

/-- The age passed to the rate each simulated year:
`pavement_age + year if pavement_age else None` (`None`/`0` falsy). -/
def forecastAgeArg (pavement_age : Option ℤ) (year : ℕ) : Option ℤ :=
  match pavement_age with
  | none => none
  | some a => if a = 0 then none else some (a + year)

/-- The simulation loop of `forecast_pci` (lines 231–238): each year the
rate is recomputed from the updated PCI and age, the PCI floors at 0, and
the value recorded for the year is rounded to one decimal while the
carried PCI stays unrounded. -/
def forecastSteps (pavement_type : String) (climate_zone : ClimateZone)
    (aadt : Option ℤ) (pavement_age : Option ℤ) :
    ℚ → ℕ → ℕ → List ℚ
  | _, _, 0 => []
  | pci, year, n + 1 =>
    let rate := calculate_degradation_rate pci pavement_type climate_zone aadt
      (forecastAgeArg pavement_age year) 1
    let pci2 := max 0 (pci + rate)
    pyRound 1 pci2 ::
      forecastSteps pavement_type climate_zone aadt pavement_age pci2 (year + 1) n

/-- `forecast_pci`, lines 216–240.  The year-indexed dictionary
`{0: current_pci, 1: …, years: …}` is the list whose index is the year. -/
def forecast_pci (current_pci : ℚ) (years : ℕ) (pavement_type : String)
    (climate_zone : ClimateZone) (aadt : Option ℤ) (pavement_age : Option ℤ) :
    List ℚ :=
  current_pci ::
    forecastSteps pavement_type climate_zone aadt pavement_age current_pci 1 years

theorem calculate_degradation_rate_le {current_pci : ℚ} {pt : String}
    {cz : ClimateZone} {aadt : Option ℤ} {page : Option ℤ} {ms : ℚ} :
    calculate_degradation_rate current_pci pt cz aadt page ms ≤ -2 := by
  unfold calculate_degradation_rate
  exact max_le (by norm_num) (min_le_left _ _)

theorem calculate_degradation_rate_ge {current_pci : ℚ} {pt : String}
    {cz : ClimateZone} {aadt : Option ℤ} {page : Option ℤ} {ms : ℚ} :
    -12 ≤ calculate_degradation_rate current_pci pt cz aadt page ms := by
  unfold calculate_degradation_rate
  exact le_max_left _ _

theorem pyRound_zero (d : ℕ) : pyRound d 0 = 0 := by
  norm_num [pyRound, roundHalfEven]

/-- One simulated step can never exceed the PCI it started from: the rate
is at most −2, the floor is 0, and rounding to one decimal adds at most
1/20. -/
theorem forecast_step_le {pci rate : ℚ} (h0 : 0 ≤ pci) (hrate : rate ≤ -2) :
    pyRound 1 (max 0 (pci + rate)) ≤ pci := by
  rcases le_or_lt 2 pci with h2 | h2
  · have hmax : max 0 (pci + rate) ≤ pci - 2 := by
      apply max_le (by linarith) (by linarith)
    have hc : 1 / (2 * (10 : ℚ) ^ (1 : ℕ)) = 1/20 := by norm_num
    calc pyRound 1 (max 0 (pci + rate))
        ≤ max 0 (pci + rate) + 1 / (2 * (10 : ℚ) ^ (1 : ℕ)) := pyRound_le 1 _
      _ ≤ pci - 2 + 1/20 := by rw [hc]; linarith
      _ ≤ pci := by linarith
  · have hmax : max 0 (pci + rate) = 0 := max_eq_left (by linarith)
    rw [hmax, pyRound_zero]
    exact h0

theorem forecastSteps_spec (pt : String) (cz : ClimateZone) (aadt : Option ℤ)
    (page : Option ℤ) :
    ∀ (n year : ℕ) (pci : ℚ), 0 ≤ pci →
      (∀ x ∈ forecastSteps pt cz aadt page pci year n, 0 ≤ x)
      ∧ List.Chain' (fun a b => b ≤ a) (forecastSteps pt cz aadt page pci year n)
      ∧ (∀ y ∈ (forecastSteps pt cz aadt page pci year n).head?,
          y ≤ pci ∧ y ≤ pyRound 1 pci) := by
  intro n
  induction n with
  | zero => intro year pci h0; simp [forecastSteps]
  | succ n ih =>
    intro year pci h0
    have hrate : calculate_degradation_rate pci pt cz aadt (forecastAgeArg page year) 1 ≤ -2 :=
      calculate_degradation_rate_le
    set rate := calculate_degradation_rate pci pt cz aadt (forecastAgeArg page year) 1
      with hratedef
    have h02 : (0 : ℚ) ≤ max 0 (pci + rate) := le_max_left _ _
    obtain ⟨ihnn, ihch, ihhd⟩ := ih (year + 1) (max 0 (pci + rate)) h02
    have hstep : pyRound 1 (max 0 (pci + rate)) ≤ pci := forecast_step_le h0 hrate
    have hmax_le : max 0 (pci + rate) ≤ pci :=
      max_le h0 (by linarith)
    refine ⟨?_, ?_, ?_⟩
    · intro x hx
      rw [forecastSteps] at hx
      rcases List.mem_cons.mp hx with h | h
      · rw [h]
        exact pyRound_nonneg 1 h02
      · exact ihnn x h
    · rw [forecastSteps, List.chain'_cons']
      refine ⟨?_, ihch⟩
      intro y hy
      exact (ihhd y hy).2
    · intro y hy
      rw [forecastSteps] at hy
      simp only [List.head?_cons, Option.mem_def, Option.some.injEq] at hy
      subst hy
      exact ⟨hstep, pyRound_mono 1 hmax_le⟩

/-- C5.  For every starting PCI in its defined range [0, 100], every
pavement type, climate zone, AADT, pavement age and horizon, the
`forecast_pci` trajectory is nonnegative at every year and non-increasing
from each year to the next. -/
theorem forecast_pci_floor_monotone (current_pci : ℚ) (years : ℕ)
    (pavement_type : String) (climate_zone : ClimateZone) (aadt : Option ℤ)
    (pavement_age : Option ℤ) (h0 : 0 ≤ current_pci) (h100 : current_pci ≤ 100) :
    (∀ x ∈ forecast_pci current_pci years pavement_type climate_zone aadt pavement_age,
      0 ≤ x)
    ∧ List.Chain' (fun a b => b ≤ a)
        (forecast_pci current_pci years pavement_type climate_zone aadt pavement_age) := by
  obtain ⟨hnn, hch, hhd⟩ := forecastSteps_spec pavement_type climate_zone aadt
    pavement_age years 1 current_pci h0
  constructor
  · intro x hx
    rw [forecast_pci] at hx
    rcases List.mem_cons.mp hx with h | h
    · rw [h]; exact h0
    · exact hnn x h
  · rw [forecast_pci, List.chain'_cons']
    exact ⟨fun y hy => (hhd y hy).1, hch⟩

/-- Witness for C5: the spec's own scenario, PCI 55 on asphalt in a
moderate climate with AADT 15000 over five years. -/
theorem forecast_pci_floor_monotone_witness :
    (∀ x ∈ forecast_pci 55 5 "AC" ClimateZone.moderate (some 15000) (some 10), 0 ≤ x)
    ∧ List.Chain' (fun a b => b ≤ a)
        (forecast_pci 55 5 "AC" ClimateZone.moderate (some 15000) (some 10)) :=
  forecast_pci_floor_monotone 55 5 "AC" ClimateZone.moderate (some 15000) (some 10)
    (by norm_num) (by norm_num)

/-- The `years_to_critical` search loop of `forecast_degradation` (lines
766–771): walk the year-indexed forecast in order, return the first year
whose PCI is below 40, or the default (`years + 1`). -/
def yearsToCriticalLoop (default : ℕ) : List (ℕ × ℚ) → ℕ
  | [] => default
  | (year, pci) :: rest =>
    if pci < 40 then year else yearsToCriticalLoop default rest

/-- `years_to_critical` as computed by `forecast_degradation`. -/
def years_to_critical (pci_forecast : List ℚ) (years : ℕ) : ℕ :=
  yearsToCriticalLoop (years + 1) pci_forecast.enum

theorem forecastSteps_length (pt : String) (cz : ClimateZone) (aadt : Option ℤ)
    (page : Option ℤ) :
    ∀ (n : ℕ) (pci : ℚ) (year : ℕ),
      (forecastSteps pt cz aadt page pci year n).length = n := by
  intro n
  induction n with
  | zero => intro pci year; rfl
  | succ n ihn =>
    intro pci year
    rw [forecastSteps, List.length_cons, ihn]

theorem yearsToCriticalLoop_spec (default : ℕ) :
    ∀ (l : List ℚ) (k : ℕ),
      (∃ j v, l[j]? = some v ∧ v < 40
        ∧ (∀ i w, i < j → l[i]? = some w → ¬ w < 40)
        ∧ yearsToCriticalLoop default (List.enumFrom k l) = k + j)
      ∨ ((∀ v ∈ l, ¬ v < 40)
        ∧ yearsToCriticalLoop default (List.enumFrom k l) = default) := by
  intro l
  induction l with
  | nil =>
    intro k
    right
    simp [yearsToCriticalLoop]
  | cons p rest ih =>
    intro k
    rw [List.enumFrom_cons]
    by_cases hp : p < 40
    · left
      refine ⟨0, p, by simp, hp, ?_, ?_⟩
      · intro i w hi
        omega
      · simp [yearsToCriticalLoop, hp]
    · rcases ih (k + 1) with ⟨j, v, hj, hv, hpre, heq⟩ | ⟨hall, heq⟩
      · left
        refine ⟨j + 1, v, by simpa using hj, hv, ?_, ?_⟩
        · intro i w hi hw
          rcases i with _ | i
          · simp only [List.getElem?_cons_zero, Option.some.injEq] at hw
            rw [← hw]
            exact hp
          · exact hpre i w (by omega) (by simpa using hw)
        · simp only [yearsToCriticalLoop, if_neg hp]
          rw [heq]
          omega
      · right
        refine ⟨?_, ?_⟩
        · intro v hv
          rcases List.mem_cons.mp hv with h | h
          · rw [h]; exact hp
          · exact hall v h
        · simp [yearsToCriticalLoop, hp, heq]

/-- C7.  Over a `forecast_pci` trajectory of `years + 1` simulated years,
`years_to_critical` is the smallest year whose predicted PCI is below 40,
and `years + 1` when no simulated year falls below 40. -/
theorem years_to_critical_first_crossing (current_pci : ℚ) (years : ℕ)
    (pavement_type : String) (climate_zone : ClimateZone) (aadt : Option ℤ)
    (pavement_age : Option ℤ) :
    (∃ j v, (forecast_pci current_pci years pavement_type climate_zone aadt
          pavement_age)[j]? = some v ∧ v < 40
      ∧ (∀ i w, i < j →
          (forecast_pci current_pci years pavement_type climate_zone aadt
            pavement_age)[i]? = some w → ¬ w < 40)
      ∧ j ≤ years
      ∧ years_to_critical (forecast_pci current_pci years pavement_type climate_zone
          aadt pavement_age) years = j)
    ∨ ((∀ v ∈ forecast_pci current_pci years pavement_type climate_zone aadt
          pavement_age, ¬ v < 40)
      ∧ years_to_critical (forecast_pci current_pci years pavement_type climate_zone
          aadt pavement_age) years = years + 1) := by
  have hlen : (forecast_pci current_pci years pavement_type climate_zone aadt
      pavement_age).length = years + 1 := by
    rw [forecast_pci, List.length_cons, forecastSteps_length]
  rcases yearsToCriticalLoop_spec (years + 1)
      (forecast_pci current_pci years pavement_type climate_zone aadt pavement_age) 0
    with ⟨j, v, hj, hv, hpre, heq⟩ | ⟨hall, heq⟩
  · left
    refine ⟨j, v, hj, hv, hpre, ?_, ?_⟩
    · have hjlt : j < (forecast_pci current_pci years pavement_type climate_zone aadt
          pavement_age).length := by
        rcases List.getElem?_eq_some.mp hj with ⟨h, _⟩
        exact h
      omega
    · rw [years_to_critical]
      rw [show (forecast_pci current_pci years pavement_type climate_zone aadt
          pavement_age).enum = List.enumFrom 0 (forecast_pci current_pci years
          pavement_type climate_zone aadt pavement_age) from rfl]
      omega
  · right
    refine ⟨hall, ?_⟩
    rw [years_to_critical]
    exact heq

/-- The intervention cost tiering (`get_cost_per_m2` inside
`find_optimal_intervention`, backed by `INTERVENTION_COSTS`). -/
def get_cost_per_m2 (pci : ℚ) : ℚ :=
  if 70 ≤ pci then 8
  else if 50 ≤ pci then 25
  else if 30 ≤ pci then 45
  else 65

/-- Discounted cost of one `(year, pci)` trajectory entry:
`get_cost_per_m2(pci) * 3700 / 1.03 ** year`. -/
def entryDiscountedCost (e : ℕ × ℚ) : ℚ :=
  get_cost_per_m2 e.2 * 3700 / (103/100) ^ e.1

/-- Whether an entry's PCI lies in the preventive window `[65, 75]`. -/
def isWindowEntry (e : ℕ × ℚ) : Bool :=
  decide (65 ≤ e.2) && decide (e.2 ≤ 75)

/-- `discounted_cost < min_lifecycle_cost` with `∞` as the initial bound. -/
def beatsMin (d : ℚ) : Option ℚ → Bool
  | none => true
  | some m => decide (d < m)

/-- The scan loop of `find_optimal_intervention` (lines 278–290): walk the
trajectory, stop at the first PCI ≤ 25, and keep the first strict minimum
of the discounted cost among window entries.  State:
`(optimal_year, optimal_pci, min_lifecycle_cost)`. -/
def fOIScan : List (ℕ × ℚ) → ℕ × ℚ × Option ℚ → ℕ × ℚ × Option ℚ
  | [], st => st
  | (year, pci) :: rest, st =>
    if pci ≤ 25 then st
    else
      let discounted_cost := get_cost_per_m2 pci * 3700 / (103/100) ^ year
      if isWindowEntry (year, pci) && beatsMin discounted_cost st.2.2 then
        fOIScan rest (year, pci, some discounted_cost)
      else fOIScan rest st

/-- The fallback loop (lines 293–298): first entry with PCI ≤ 70. -/
def fOIFallback : List (ℕ × ℚ) → Option (ℕ × ℚ)
  | [] => none
  | (year, pci) :: rest =>
    if pci ≤ 70 then some (year, pci) else fOIFallback rest

/-- The delayed-cost loop (lines 302–307): PCI at the first year ≤ 30,
else the literal 30. -/
def fOIDelayed : List (ℕ × ℚ) → ℚ
  | [] => 30
  | (_, pci) :: rest => if pci ≤ 30 then pci else fOIDelayed rest

/-- `find_optimal_intervention`, lines 243–310, on the year-indexed
trajectory list.  Returns `(optimal_year, optimal_pci, cost_now,
cost_optimal, cost_delayed)`. -/
def find_optimal_intervention (forecast : List ℚ) (current_pci : ℚ) :
    ℕ × ℚ × ℚ × ℚ × ℚ :=
  let cost_now := get_cost_per_m2 current_pci * 3700
  let s := fOIScan forecast.enum (0, current_pci, none)
  let oy_op : ℕ × ℚ :=
    if s.1 = 0 then
      match fOIFallback forecast.enum with
      | some yp => yp
      | none => (0, s.2.1)
    else (s.1, s.2.1)
  let cost_optimal := get_cost_per_m2 oy_op.2 * 3700
  let delayed_pci := fOIDelayed forecast.enum
  let cost_delayed := get_cost_per_m2 delayed_pci * 3700
  (oy_op.1, oy_op.2, cost_now, cost_optimal, cost_delayed)

/-- The year `y` of a trajectory exists and its PCI lies in `[65, 75]`. -/
def windowPci (ps : List ℚ) (y : ℕ) : Prop :=
  match ps[y]? with
  | some p => 65 ≤ p ∧ p ≤ 75
  | none => False

instance (ps : List ℚ) (y : ℕ) : Decidable (windowPci ps y) := by
  unfold windowPci
  cases ps[y]? with
  | none => exact inferInstanceAs (Decidable False)
  | some p => exact inferInstanceAs (Decidable (65 ≤ p ∧ p ≤ 75))

/-- The 3%-per-year discounted repair cost of a trajectory year. -/
def discountedCost (ps : List ℚ) (y : ℕ) : ℚ :=
  match ps[y]? with
  | some p => get_cost_per_m2 p * 3700 / (103/100) ^ y
  | none => 0

/-- Year `y` is the earliest minimiser of the discounted cost among the
trajectory years whose PCI lies in `[65, 75]`. -/
def earliestWindowArgmin (ps : List ℚ) (y : ℕ) : Prop :=
  windowPci ps y
  ∧ (∀ z, z < ps.length → windowPci ps z → discountedCost ps y ≤ discountedCost ps z)
  ∧ (∀ z, z < y → windowPci ps z → discountedCost ps y < discountedCost ps z)

/-- The first trajectory year with PCI ≤ 70, and 0 when there is none
(the fallback's effect on `optimal_year`). -/
def firstYearLe70 (ps : List ℚ) : ℕ :=
  match List.findIdx? (fun p => decide (p ≤ 70)) ps with
  | some i => i
  | none => 0

/-- Running strict-minimum selection below a known bound `m`: the entry
the scan loop would end on, starting from `min_lifecycle_cost = m`. -/
def bestBelow (m : ℚ) : List (ℕ × ℚ) → Option (ℕ × ℚ)
  | [] => none
  | e :: rest =>
    if isWindowEntry e && decide (entryDiscountedCost e < m) then
      match bestBelow (entryDiscountedCost e) rest with
      | some f => some f
      | none => some e
    else bestBelow m rest

/-- Running strict-minimum selection from the infinite initial bound. -/
def bestFromNone : List (ℕ × ℚ) → Option (ℕ × ℚ)
  | [] => none
  | e :: rest =>
    if isWindowEntry e then
      match bestBelow (entryDiscountedCost e) rest with
      | some f => some f
      | none => some e
    else bestFromNone rest

theorem fOIScan_takeWhile : ∀ (l : List (ℕ × ℚ)) (st : ℕ × ℚ × Option ℚ),
    fOIScan l st = fOIScan (l.takeWhile (fun e => decide (25 < e.2))) st := by
  intro l
  induction l with
  | nil => intro st; rfl
  | cons e rest ih =>
    intro st
    obtain ⟨year, pci⟩ := e
    rw [List.takeWhile_cons]
    by_cases hp : pci ≤ 25
    · have hpred : decide (25 < (year, pci).2) = false := by
        simp only [decide_eq_false_iff_not]
        exact not_lt.mpr hp
      rw [hpred]
      simp only [Bool.false_eq_true, if_false]
      simp [fOIScan, hp]
    · have hpred : decide (25 < (year, pci).2) = true := by
        simp only [decide_eq_true_eq]
        exact not_le.mp hp
      rw [hpred]
      simp only [if_true]
      simp only [fOIScan, if_neg hp]
      by_cases hc : (isWindowEntry (year, pci)
          && beatsMin (get_cost_per_m2 pci * 3700 / (103/100) ^ year) st.2.2) = true
      · rw [if_pos hc, if_pos hc, ih]
      · rw [if_neg hc, if_neg hc, ih]

theorem fOIScan_some_eq : ∀ (l : List (ℕ × ℚ)), (∀ e ∈ l, 25 < e.2) →
    ∀ (oy : ℕ) (op m : ℚ),
    fOIScan l (oy, op, some m)
      = match bestBelow m l with
        | some f => (f.1, f.2, some (entryDiscountedCost f))
        | none => (oy, op, some m) := by
  intro l
  induction l with
  | nil => intro _ oy op m; rfl
  | cons e rest ih =>
    intro h25 oy op m
    obtain ⟨year, pci⟩ := e
    have hgt : 25 < pci := h25 (year, pci) (List.mem_cons_self _ _)
    have h25r : ∀ e ∈ rest, 25 < e.2 := fun e he => h25 e (List.mem_cons_of_mem _ he)
    have hd : get_cost_per_m2 pci * 3700 / (103/100) ^ year
        = entryDiscountedCost (year, pci) := rfl
    simp only [fOIScan, bestBelow, if_neg (not_le.mpr hgt), beatsMin, hd]
    by_cases hc : (isWindowEntry (year, pci)
        && decide (entryDiscountedCost (year, pci) < m)) = true
    · rw [if_pos hc, if_pos hc, ih h25r]
      cases hbb : bestBelow (entryDiscountedCost (year, pci)) rest with
      | none => simp [hbb]
      | some f => simp [hbb]
    · rw [if_neg hc, if_neg hc, ih h25r]

theorem fOIScan_none_eq : ∀ (l : List (ℕ × ℚ)), (∀ e ∈ l, 25 < e.2) →
    ∀ (oy : ℕ) (op : ℚ),
    fOIScan l (oy, op, none)
      = match bestFromNone l with
        | some f => (f.1, f.2, some (entryDiscountedCost f))
        | none => (oy, op, none) := by
  intro l
  induction l with
  | nil => intro _ oy op; rfl
  | cons e rest ih =>
    intro h25 oy op
    obtain ⟨year, pci⟩ := e
    have hgt : 25 < pci := h25 (year, pci) (List.mem_cons_self _ _)
    have h25r : ∀ e ∈ rest, 25 < e.2 := fun e he => h25 e (List.mem_cons_of_mem _ he)
    have hd : get_cost_per_m2 pci * 3700 / (103/100) ^ year
        = entryDiscountedCost (year, pci) := rfl
    simp only [fOIScan, bestFromNone, if_neg (not_le.mpr hgt), beatsMin, hd,
      Bool.and_true]
    by_cases hw : isWindowEntry (year, pci) = true
    · rw [if_pos hw, if_pos hw, fOIScan_some_eq rest h25r]
      cases hbb : bestBelow (entryDiscountedCost (year, pci)) rest with
      | none => simp [hbb]
      | some f => simp [hbb]
    · rw [if_neg hw, if_neg hw, ih h25r]

theorem bestBelow_none_iff : ∀ (l : List (ℕ × ℚ)) (m : ℚ),
    bestBelow m l = none
      ↔ ∀ e ∈ l, isWindowEntry e = true → m ≤ entryDiscountedCost e := by
  intro l
  induction l with
  | nil => intro m; simp [bestBelow]
  | cons e rest ih =>
    intro m
    simp only [bestBelow]
    by_cases hc : (isWindowEntry e && decide (entryDiscountedCost e < m)) = true
    · rw [if_pos hc]
      rw [Bool.and_eq_true, decide_eq_true_eq] at hc
      constructor
      · intro h
        cases hbb : bestBelow (entryDiscountedCost e) rest <;> rw [hbb] at h <;>
          simp at h
      · intro h
        exact absurd (h e (List.mem_cons_self _ _) hc.1) (not_le.mpr hc.2)
    · rw [if_neg hc]
      rw [Bool.and_eq_true, decide_eq_true_eq, not_and_or] at hc
      rw [ih m]
      constructor
      · intro h e' he'
        rcases List.mem_cons.mp he' with rfl | hmem
        · intro hw
          rcases hc with hc | hc
          · exact absurd hw hc
          · exact not_lt.mp hc
        · exact h e' hmem
      · intro h e' he'
        exact h e' (List.mem_cons_of_mem _ he')

theorem bestBelow_some_spec : ∀ (l : List (ℕ × ℚ)) (m : ℚ) (f : ℕ × ℚ),
    bestBelow m l = some f →
    isWindowEntry f = true ∧ entryDiscountedCost f < m
    ∧ (∀ e ∈ l, isWindowEntry e = true → entryDiscountedCost e < m →
        entryDiscountedCost f ≤ entryDiscountedCost e)
    ∧ ∃ l₁ l₂, l = l₁ ++ f :: l₂
        ∧ ∀ e ∈ l₁, isWindowEntry e = true →
            entryDiscountedCost f < entryDiscountedCost e := by
  intro l
  induction l with
  | nil => intro m f h; exact absurd h (by simp [bestBelow])
  | cons e rest ih =>
    intro m f h
    simp only [bestBelow] at h
    by_cases hc : (isWindowEntry e && decide (entryDiscountedCost e < m)) = true
    · rw [if_pos hc] at h
      rw [Bool.and_eq_true, decide_eq_true_eq] at hc
      cases hbb : bestBelow (entryDiscountedCost e) rest with
      | none =>
        rw [hbb] at h
        simp only [Option.some.injEq] at h
        subst h
        have hrest := (bestBelow_none_iff rest (entryDiscountedCost e)).mp hbb
        refine ⟨hc.1, hc.2, ?_, [], rest, rfl, by simp⟩
        intro e' he' hw' _
        rcases List.mem_cons.mp he' with rfl | hmem
        · exact le_refl _
        · exact hrest e' hmem hw'
      | some f' =>
        rw [hbb] at h
        simp only [Option.some.injEq] at h
        subst h
        obtain ⟨hw, hlt, hmin, l₁, l₂, hsplit, hstrict⟩ := ih _ _ hbb
        refine ⟨hw, hlt.trans hc.2, ?_, e :: l₁, l₂, by simp [hsplit], ?_⟩
        · intro e' he' hw' hlt'
          rcases List.mem_cons.mp he' with rfl | hmem
          · exact le_of_lt hlt
          · rcases lt_or_le (entryDiscountedCost e') (entryDiscountedCost e) with h' | h'
            · exact hmin e' hmem hw' h'
            · exact le_of_lt (lt_of_lt_of_le hlt h')
        · intro e' he' hw'
          rcases List.mem_cons.mp he' with rfl | hmem
          · exact hlt
          · exact hstrict e' hmem hw'
    · rw [if_neg hc] at h
      rw [Bool.and_eq_true, decide_eq_true_eq, not_and_or] at hc
      obtain ⟨hw, hlt, hmin, l₁, l₂, hsplit, hstrict⟩ := ih _ _ h
      refine ⟨hw, hlt, ?_, e :: l₁, l₂, by simp [hsplit], ?_⟩
      · intro e' he' hw' hlt'
        rcases List.mem_cons.mp he' with rfl | hmem
        · rcases hc with hc | hc
          · exact absurd hw' hc
          · exact absurd hlt' hc
        · exact hmin e' hmem hw' hlt'
      · intro e' he' hw'
        rcases List.mem_cons.mp he' with rfl | hmem
        · rcases hc with hc | hc
          · exact absurd hw' hc
          · exact lt_of_lt_of_le hlt (not_lt.mp hc)
        · exact hstrict e' hmem hw'

theorem bestFromNone_none_iff : ∀ (l : List (ℕ × ℚ)),
    bestFromNone l = none ↔ ∀ e ∈ l, isWindowEntry e = false := by
  intro l
  induction l with
  | nil => simp [bestFromNone]
  | cons e rest ih =>
    simp only [bestFromNone]
    by_cases hw : isWindowEntry e = true
    · rw [if_pos hw]
      constructor
      · intro h
        cases hbb : bestBelow (entryDiscountedCost e) rest <;> rw [hbb] at h <;>
          simp at h
      · intro h
        exact absurd hw (by simp [h e (List.mem_cons_self _ _)])
    · rw [if_neg hw]
      rw [ih]
      constructor
      · intro h e' he'
        rcases List.mem_cons.mp he' with rfl | hmem
        · exact Bool.not_eq_true _ ▸ (by simpa using hw)
        · exact h e' hmem
      · intro h e' he'
        exact h e' (List.mem_cons_of_mem _ he')

theorem bestFromNone_some_spec : ∀ (l : List (ℕ × ℚ)) (f : ℕ × ℚ),
    bestFromNone l = some f →
    isWindowEntry f = true
    ∧ (∀ e ∈ l, isWindowEntry e = true →
        entryDiscountedCost f ≤ entryDiscountedCost e)
    ∧ ∃ l₁ l₂, l = l₁ ++ f :: l₂
        ∧ ∀ e ∈ l₁, isWindowEntry e = true →
            entryDiscountedCost f < entryDiscountedCost e := by
  intro l
  induction l with
  | nil => intro f h; exact absurd h (by simp [bestFromNone])
  | cons e rest ih =>
    intro f h
    simp only [bestFromNone] at h
    by_cases hw : isWindowEntry e = true
    · rw [if_pos hw] at h
      cases hbb : bestBelow (entryDiscountedCost e) rest with
      | none =>
        rw [hbb] at h
        simp only [Option.some.injEq] at h
        subst h
        have hrest := (bestBelow_none_iff rest (entryDiscountedCost e)).mp hbb
        refine ⟨hw, ?_, [], rest, rfl, by simp⟩
        intro e' he' hw'
        rcases List.mem_cons.mp he' with rfl | hmem
        · exact le_refl _
        · exact hrest e' hmem hw'
      | some f' =>
        rw [hbb] at h
        simp only [Option.some.injEq] at h
        subst h
        obtain ⟨hwf, hlt, hmin, l₁, l₂, hsplit, hstrict⟩ := bestBelow_some_spec _ _ _ hbb
        refine ⟨hwf, ?_, e :: l₁, l₂, by simp [hsplit], ?_⟩
        · intro e' he' hw'
          rcases List.mem_cons.mp he' with rfl | hmem
          · exact le_of_lt hlt
          · rcases lt_or_le (entryDiscountedCost e') (entryDiscountedCost e) with h' | h'
            · exact hmin e' hmem hw' h'
            · exact le_of_lt (lt_of_lt_of_le hlt h')
        · intro e' he' hw'
          rcases List.mem_cons.mp he' with rfl | hmem
          · exact hlt
          · exact hstrict e' hmem hw'
    · rw [if_neg hw] at h
      obtain ⟨hwf, hmin, l₁, l₂, hsplit, hstrict⟩ := ih _ h
      refine ⟨hwf, ?_, e :: l₁, l₂, by simp [hsplit], ?_⟩
      · intro e' he' hw'
        rcases List.mem_cons.mp he' with rfl | hmem
        · exact absurd hw' hw
        · exact hmin e' hmem hw'
      · intro e' he' hw'
        rcases List.mem_cons.mp he' with rfl | hmem
        · exact absurd hw' hw
        · exact hstrict e' hmem hw'

/-- The prefix of the enumerated trajectory that the scan loop actually
visits: everything before the first PCI ≤ 25. -/
def trajectoryEntries (ps : List ℚ) : List (ℕ × ℚ) :=
  ps.enum.takeWhile (fun e => decide (25 < e.2))

theorem chain_ge_head : ∀ (rest : List ℚ) (x : ℚ),
    List.Chain' (fun a b => b ≤ a) (x :: rest) → ∀ y ∈ rest, y ≤ x := by
  intro rest
  induction rest with
  | nil => intro x _ y hy; simp at hy
  | cons y rest' ih =>
    intro x hch z hz
    rw [List.chain'_cons] at hch
    rcases List.mem_cons.mp hz with rfl | hmem
    · exact hch.1
    · exact (ih y hch.2 z hmem).trans hch.1

theorem chain_ge_getElem? : ∀ (ps : List ℚ),
    List.Chain' (fun a b => b ≤ a) ps →
    ∀ (i j : ℕ) (p q : ℚ), i ≤ j → ps[i]? = some p → ps[j]? = some q → q ≤ p := by
  intro ps
  induction ps with
  | nil => intro _ i j p q _ hp; simp at hp
  | cons x rest ih =>
    intro hch i j p q hij hp hq
    rcases i with _ | i
    · simp only [List.getElem?_cons_zero, Option.some.injEq] at hp
      subst hp
      rcases j with _ | j
      · simp only [List.getElem?_cons_zero, Option.some.injEq] at hq
        exact hq.ge
      · have hqmem : q ∈ rest := by
          simp only [List.getElem?_cons_succ] at hq
          obtain ⟨hjl, hje⟩ := List.getElem?_eq_some.mp hq
          exact List.mem_iff_getElem.mpr ⟨j, hjl, hje⟩
        exact chain_ge_head rest x hch q hqmem
    · rcases j with _ | j
      · omega
      · simp only [List.getElem?_cons_succ] at hp hq
        exact ih ((List.chain'_cons'.mp hch).2) i j p q (by omega) hp hq

theorem mem_trajectoryEntries_aux : ∀ (l : List ℚ) (k y : ℕ) (p : ℚ),
    l[y]? = some p →
    (∀ i q, i ≤ y → l[i]? = some q → 25 < q) →
    (k + y, p) ∈ (List.enumFrom k l).takeWhile (fun e => decide (25 < e.2)) := by
  intro l
  induction l with
  | nil => intro k y p hp; simp at hp
  | cons x rest ih =>
    intro k y p hp hpre
    have hx : 25 < x := hpre 0 x (Nat.zero_le y) (by simp)
    rw [List.enumFrom_cons, List.takeWhile_cons]
    have hpred : decide (25 < ((k, x) : ℕ × ℚ).2) = true := by
      simp only [decide_eq_true_eq]
      exact hx
    rw [hpred]
    simp only [if_true]
    rcases y with _ | y
    · simp only [List.getElem?_cons_zero, Option.some.injEq] at hp
      subst hp
      exact List.mem_cons_self _ _
    · simp only [List.getElem?_cons_succ] at hp
      have hpre' : ∀ i q, i ≤ y → rest[i]? = some q → 25 < q := by
        intro i q hi hq
        exact hpre (i + 1) q (by omega) (by simpa using hq)
      have := ih (k + 1) y p hp hpre'
      have harith : k + (y + 1) = (k + 1) + y := by omega
      rw [harith]
      exact List.mem_cons_of_mem _ this

theorem mem_trajectoryEntries {ps : List ℚ} {y : ℕ} {p : ℚ}
    (hp : ps[y]? = some p)
    (hpre : ∀ i q, i ≤ y → ps[i]? = some q → 25 < q) :
    (y, p) ∈ trajectoryEntries ps := by
  have := mem_trajectoryEntries_aux ps 0 y p hp hpre
  simpa [trajectoryEntries, List.enum] using this

theorem trajectoryEntries_getElem? {ps : List ℚ} {j : ℕ} {e : ℕ × ℚ}
    (h : (trajectoryEntries ps)[j]? = some e) : e.1 = j ∧ ps[j]? = some e.2 := by
  obtain ⟨hjlt, hje⟩ := List.getElem?_eq_some.mp h
  have hpre : trajectoryEntries ps <+: ps.enum := by
    unfold trajectoryEntries
    exact List.takeWhile_prefix _
  obtain ⟨t, ht⟩ := hpre
  have henum : ps.enum[j]? = some e := by
    rw [← ht, List.getElem?_append, if_pos hjlt]
    exact h
  rw [List.getElem?_enum] at henum
  cases hps : ps[j]? with
  | none => rw [hps] at henum; simp at henum
  | some v =>
    rw [hps] at henum
    simp only [Option.map_some'] at henum
    rw [← Option.some_inj.mp henum]
    exact ⟨rfl, rfl⟩

theorem mem_trajectoryEntries_inv {ps : List ℚ} {e : ℕ × ℚ}
    (h : e ∈ trajectoryEntries ps) : ps[e.1]? = some e.2 := by
  obtain ⟨j, hj, hje⟩ := List.mem_iff_getElem.mp h
  have := trajectoryEntries_getElem? (List.getElem?_eq_some.mpr ⟨hj, hje⟩)
  rw [this.1]
  exact this.2

theorem mem_trajectoryEntries_pos {ps : List ℚ} {e : ℕ × ℚ}
    (h : e ∈ trajectoryEntries ps) : (trajectoryEntries ps)[e.1]? = some e := by
  obtain ⟨j, hj, hje⟩ := List.mem_iff_getElem.mp h
  have hc := trajectoryEntries_getElem? (List.getElem?_eq_some.mpr ⟨hj, hje⟩)
  rw [hc.1]
  exact List.getElem?_eq_some.mpr ⟨hj, hje⟩

theorem window_mem_entries {ps : List ℚ}
    (hmono : List.Chain' (fun a b => b ≤ a) ps) {y : ℕ}
    (hw : windowPci ps y) :
    ∃ py, ps[y]? = some py ∧ 65 ≤ py ∧ py ≤ 75
      ∧ (y, py) ∈ trajectoryEntries ps ∧ isWindowEntry (y, py) = true := by
  rcases hps : ps[y]? with _ | py
  · simp only [windowPci, hps] at hw
  · simp only [windowPci, hps] at hw
    have hprefix25 : ∀ i q, i ≤ y → ps[i]? = some q → 25 < q := by
      intro i q hi hq
      have : py ≤ q := chain_ge_getElem? ps hmono i y q py hi hq hps
      linarith [hw.1]
    refine ⟨py, rfl, hw.1, hw.2, mem_trajectoryEntries hps hprefix25, ?_⟩
    simp [isWindowEntry, hw.1, hw.2]

theorem isWindowEntry_windowPci {ps : List ℚ} {e : ℕ × ℚ}
    (hget : ps[e.1]? = some e.2) (hw : isWindowEntry e = true) :
    windowPci ps e.1 := by
  simp only [isWindowEntry, Bool.and_eq_true, decide_eq_true_eq] at hw
  simp only [windowPci, hget]
  exact hw

theorem bestFromNone_argmin_unique (ps : List ℚ)
    (hmono : List.Chain' (fun a b => b ≤ a) ps) (y : ℕ)
    (hy : earliestWindowArgmin ps y) {f : ℕ × ℚ}
    (hf : bestFromNone (trajectoryEntries ps) = some f) : f.1 = y := by
  obtain ⟨hwy, hmin, hstrict⟩ := hy
  obtain ⟨py, hps, h65, h75, hey, heyw⟩ := window_mem_entries hmono hwy
  obtain ⟨hwf, hminf, l₁, l₂, hsplit, hstrictf⟩ := bestFromNone_some_spec _ f hf
  have hfmem : f ∈ trajectoryEntries ps := by
    rw [hsplit]
    exact List.mem_append_right l₁ (List.mem_cons_self _ _)
  have hfget : ps[f.1]? = some f.2 := mem_trajectoryEntries_inv hfmem
  have hwfp : windowPci ps f.1 := isWindowEntry_windowPci hfget hwf
  have hdf : discountedCost ps f.1 = entryDiscountedCost f := by
    simp only [discountedCost, hfget, entryDiscountedCost]
  have hdy : discountedCost ps y = entryDiscountedCost (y, py) := by
    simp only [discountedCost, hps, entryDiscountedCost]
  have hfl : f.1 < ps.length := (List.getElem?_eq_some.mp hfget).1
  have h1 : entryDiscountedCost f ≤ entryDiscountedCost (y, py) := hminf _ hey heyw
  have h2 : discountedCost ps y ≤ discountedCost ps f.1 := hmin f.1 hfl hwfp
  have heq : discountedCost ps y = discountedCost ps f.1 := by
    rw [hdf, hdy] at h2 ⊢
    exact le_antisymm h2 h1
  by_contra hne
  rcases Nat.lt_or_ge f.1 y with hlt | hge
  · have := hstrict f.1 hlt hwfp
    rw [heq] at this
    exact lt_irrefl _ this
  · have hlty : y < f.1 := by omega
    have hfpos : (trajectoryEntries ps)[l₁.length]? = some f := by
      rw [hsplit, List.getElem?_append_right (le_refl _)]
      simp
    have hf1 : f.1 = l₁.length := (trajectoryEntries_getElem? hfpos).1
    have heypos : (trajectoryEntries ps)[y]? = some (y, py) :=
      mem_trajectoryEntries_pos hey
    have heyl1get : l₁[y]? = some (y, py) := by
      rw [hsplit, List.getElem?_append] at heypos
      rw [if_pos (by omega)] at heypos
      exact heypos
    have heyl1 : (y, py) ∈ l₁ := by
      obtain ⟨h1', h2'⟩ := List.getElem?_eq_some.mp heyl1get
      exact List.mem_iff_getElem.mpr ⟨y, h1', h2'⟩
    have hstr := hstrictf _ heyl1 heyw
    rw [hdf, hdy] at heq
    rw [heq] at hstr
    exact lt_irrefl _ hstr

theorem fOIFallback_firstYear : ∀ (l : List ℚ) (k : ℕ),
    Option.map Prod.fst (fOIFallback (List.enumFrom k l))
      = List.findIdx? (fun p => decide (p ≤ 70)) l k := by
  intro l
  induction l with
  | nil => intro k; rfl
  | cons p rest ih =>
    intro k
    rw [List.enumFrom_cons, List.findIdx?_cons]
    by_cases hp : p ≤ 70
    · have : decide (p ≤ 70) = true := by simpa using hp
      rw [this]
      simp [fOIFallback, hp]
    · have : decide (p ≤ 70) = false := by simpa using hp
      rw [this]
      simp only [Bool.false_eq_true, if_false, fOIFallback, if_neg hp]
      exact ih (k + 1)

/-- C6 as amended: over a non-increasing trajectory, the returned
intervention year is the earliest minimiser of the 3%-discounted repair
cost among window years ([65, 75]) when that minimiser is a year other
than 0; when no window year exists, or when the minimiser is year 0
itself, the `optimal_year == 0` fallback replaces it by the first year
with PCI ≤ 70 (0 when there is none). -/
theorem find_optimal_intervention_characterization (ps : List ℚ)
    (current_pci : ℚ) (hmono : List.Chain' (fun a b => b ≤ a) ps) :
    (∀ y, earliestWindowArgmin ps y → y ≠ 0 →
      (find_optimal_intervention ps current_pci).1 = y)
    ∧ ((∀ y, y < ps.length → ¬ windowPci ps y) ∨ earliestWindowArgmin ps 0 →
      (find_optimal_intervention ps current_pci).1 = firstYearLe70 ps) := by
  have h25 : ∀ e ∈ trajectoryEntries ps, 25 < e.2 := by
    intro e he
    have := List.mem_takeWhile_imp he
    simpa using this
  have hscan : fOIScan ps.enum (0, current_pci, none)
      = match bestFromNone (trajectoryEntries ps) with
        | some f => (f.1, f.2, some (entryDiscountedCost f))
        | none => (0, current_pci, none) := by
    rw [fOIScan_takeWhile ps.enum]
    exact fOIScan_none_eq (trajectoryEntries ps) h25 0 current_pci
  have hfb : ∀ (yp : ℕ × ℚ), fOIFallback ps.enum = some yp → yp.1 = firstYearLe70 ps := by
    intro yp hyp
    have hthis := fOIFallback_firstYear ps 0
    have hyp2 : fOIFallback (List.enumFrom 0 ps) = some yp := hyp
    rw [hyp2] at hthis
    simp only [Option.map] at hthis
    rw [firstYearLe70, ← hthis]
  have hfbnone : fOIFallback ps.enum = none → firstYearLe70 ps = 0 := by
    intro hnone
    have hthis := fOIFallback_firstYear ps 0
    have hnone2 : fOIFallback (List.enumFrom 0 ps) = none := hnone
    rw [hnone2] at hthis
    simp only [Option.map] at hthis
    rw [firstYearLe70, ← hthis]
  constructor
  · intro y hy hy0
    cases hbfn : bestFromNone (trajectoryEntries ps) with
    | none =>
      exfalso
      obtain ⟨py, hps, h65, h75, hey, heyw⟩ := window_mem_entries hmono hy.1
      have := (bestFromNone_none_iff _).mp hbfn _ hey
      rw [heyw] at this
      exact Bool.true_eq_false.mp this
    | some f =>
      have hf1 : f.1 = y := bestFromNone_argmin_unique ps hmono y hy hbfn
      have hs : fOIScan ps.enum (0, current_pci, none)
          = (f.1, f.2, some (entryDiscountedCost f)) := by rw [hscan, hbfn]
      simp [find_optimal_intervention, hs, hf1, hy0]
  · intro hcase
    have hs0 : ∃ op oc, fOIScan ps.enum (0, current_pci, none) = (0, op, oc) := by
      rcases hcase with hnone | hzero
      · have hbfn : bestFromNone (trajectoryEntries ps) = none := by
          rw [bestFromNone_none_iff]
          intro e he
          by_contra hwb
          have hw' : isWindowEntry e = true := by
            revert hwb
            cases isWindowEntry e <;> simp
          have hget := mem_trajectoryEntries_inv he
          have hlen : e.1 < ps.length := (List.getElem?_eq_some.mp hget).1
          exact hnone e.1 hlen (isWindowEntry_windowPci hget hw')
        refine ⟨current_pci, none, ?_⟩
        rw [hscan, hbfn]
      · cases hbfn : bestFromNone (trajectoryEntries ps) with
        | none =>
          refine ⟨current_pci, none, ?_⟩
          rw [hscan, hbfn]
        | some f =>
          have hf0 : f.1 = 0 := bestFromNone_argmin_unique ps hmono 0 hzero hbfn
          refine ⟨f.2, some (entryDiscountedCost f), ?_⟩
          rw [hscan, hbfn]
          simp [hf0]
    obtain ⟨op, oc, hs⟩ := hs0
    cases hf : fOIFallback ps.enum with
    | none =>
      rw [hfbnone hf]
      simp [find_optimal_intervention, hs, hf]
    | some yp =>
      rw [← hfb yp hf]
      simp [find_optimal_intervention, hs, hf]

/-- Counterexample to C6 as stated: on the trajectory 75, 63 (with PCI 75
now), the only year whose PCI lies in [65, 75] is year 0, so the claimed
rule returns year 0; the code's `optimal_year == 0` fallback overrides
that choice with the first year of PCI ≤ 70, year 1. -/
theorem find_optimal_intervention_counterexample :
    (find_optimal_intervention [75, 63] 75).1 = 1
    ∧ windowPci [75, 63] 0
    ∧ ¬ windowPci [75, 63] 1
    ∧ earliestWindowArgmin [75, 63] 0
    ∧ (1 : ℕ) ≠ 0 := by
  refine ⟨?_, ?_, ?_, ?_, by norm_num⟩
  · norm_num [find_optimal_intervention, fOIScan, fOIFallback, fOIDelayed,
      isWindowEntry, beatsMin, get_cost_per_m2, List.enum, List.enumFrom]
  · norm_num [windowPci]
  · norm_num [windowPci]
  · refine ⟨by norm_num [windowPci], ?_, ?_⟩
    · intro z hz hw
      simp only [List.length_cons, List.length_nil] at hz
      interval_cases z
      · exact le_refl _
      · exact absurd hw (by norm_num [windowPci])
    · intro z hz
      omega

/-- Witness for the amended C6 on the trajectory 80, 72, 63: year 1 is the
only window year, hence the earliest minimiser, and it is nonzero, so the
function returns it. -/
theorem find_optimal_intervention_characterization_witness :
    (find_optimal_intervention [80, 72, 63] 80).1 = 1 :=
  (find_optimal_intervention_characterization [80, 72, 63] 80
      (by norm_num [List.chain'_cons])).1 1
    ⟨by norm_num [windowPci],
     by
      intro z hz hw
      simp only [List.length_cons, List.length_nil] at hz
      interval_cases z
      · exact absurd hw (by norm_num [windowPci])
      · exact le_refl _
      · exact absurd hw (by norm_num [windowPci]),
     by
      intro z hz hw
      interval_cases z
      exact absurd hw (by norm_num [windowPci])⟩
    (by norm_num)

/-! ## Corridor bundler (`backend/corridor_optimization_service.py`) -/

/-- `RoadSection` dataclass of the corridor service (all fields defaulted
by `_get_road_sections` before construction, so none is optional). -/
structure RoadSection where
  highway : String
  direction : String
  section_from : String
  section_to : String
  km_start : ℚ
  km_end : ℚ
  pci : ℚ
  condition : String
  dmi : ℚ
  iri : ℚ
  pavement_type : String
  aadt : ℤ
deriving DecidableEq, Inhabited

/-- `RoadSection.length_km` property. -/
def RoadSection.length_km (s : RoadSection) : ℚ := |s.km_end - s.km_start|

/-- `RoadSection.needs_repair` property (`pci < 70`). -/
def RoadSection.needs_repair (s : RoadSection) : Bool := decide (s.pci < 70)

/-- Cost constants of the corridor service. -/
def MOBILIZATION_COST : ℚ := 250000

/-- `COST_PER_KM_INDIVIDUAL`. -/
def COST_PER_KM_INDIVIDUAL : ℚ := 550000

/-- `COST_PER_KM_BUNDLED`. -/
def COST_PER_KM_BUNDLED : ℚ := 470000

/-- `FEDERAL_FUNDING_THRESHOLD`. -/
def FEDERAL_FUNDING_THRESHOLD : ℚ := 20000000

/-- `BundleOpportunity` dataclass.  `bundle_id` keeps the counter the
source renders as `f"B{counter:03d}"`. -/
structure BundleOpportunity where
  highway : String
  direction : String
  sections : List RoadSection
  bundle_id : ℕ
  start_km : ℚ
  end_km : ℚ
  total_length_km : ℚ
  average_pci : ℚ
  min_pci : ℚ
  max_pci : ℚ
  sections_needing_repair : ℕ
  individual_cost : ℚ
  bundled_cost : ℚ
  savings : ℚ
  savings_percent : ℚ
  traffic_disruptions_avoided : ℤ
  mobilization_savings : ℚ
  continuous_smooth_km : ℚ
  qualifies_for_federal_funding : Bool
  federal_funding_threshold : ℚ
deriving DecidableEq, Inhabited

/-- Minimum of a rational list (Python `min(generator)`; 0 on the empty
list, which the source never hits because bundles have ≥ 2 sections). -/
def listMinQ : List ℚ → ℚ
  | [] => 0
  | x :: xs => xs.foldl min x

/-- Maximum of a rational list (Python `max(generator)`). -/
def listMaxQ : List ℚ → ℚ
  | [] => 0
  | x :: xs => xs.foldl max x

/-- `_create_bundle`, lines 334–390. -/
def create_bundle (sections : List RoadSection) (highway direction : String)
    (bundle_id : ℕ) : BundleOpportunity :=
  let start_km := listMinQ (sections.map (·.km_start))
  let end_km := listMaxQ (sections.map (·.km_end))
  let total_length := (sections.map (·.length_km)).sum
  let pcis := sections.map (·.pci)
  let avg_pci := pcis.sum / pcis.length
  let individual_cost := sections.length * MOBILIZATION_COST
    + total_length * COST_PER_KM_INDIVIDUAL
  let bundled_cost := MOBILIZATION_COST + total_length * COST_PER_KM_BUNDLED
  let savings := individual_cost - bundled_cost
  let savings_percent := if 0 < individual_cost then savings / individual_cost * 100 else 0
  { highway := highway
    direction := direction
    sections := sections
    bundle_id := bundle_id
    start_km := start_km
    end_km := end_km
    total_length_km := pyRound 1 total_length
    average_pci := pyRound 1 avg_pci
    min_pci := listMinQ pcis
    max_pci := listMaxQ pcis
    sections_needing_repair := sections.length
    individual_cost := individual_cost
    bundled_cost := bundled_cost
    savings := savings
    savings_percent := pyRound 1 savings_percent
    traffic_disruptions_avoided := (sections.length : ℤ) - 1
    mobilization_savings := ((sections.length : ℚ) - 1) * MOBILIZATION_COST
    continuous_smooth_km := pyRound 1 (end_km - start_km)
    qualifies_for_federal_funding := decide (FEDERAL_FUNDING_THRESHOLD ≤ bundled_cost)
    federal_funding_threshold := FEDERAL_FUNDING_THRESHOLD }

/-- Insertion-ordered grouping (Python `defaultdict` keyed by a string:
keys appear in first-occurrence order, each group keeps input order). -/
def addToGroupBy {α : Type} (key : α → String)
    (groups : List (String × List α)) (s : α) : List (String × List α) :=
  match groups with
  | [] => [(key s, [s])]
  | (k, gs) :: rest =>
    if k = key s then (k, gs ++ [s]) :: rest
    else (k, gs) :: addToGroupBy key rest s

/-- Group a list by a string key, preserving orders. -/
def groupByKey {α : Type} (key : α → String) (l : List α) :
    List (String × List α) :=
  l.foldl (addToGroupBy key) []

/-- The bundle-building walk of `find_bundle_opportunities` (lines
291–327): extend the running bundle while the gap stays within
`max_gap_km`, emit it (when it has ≥ 2 sections and meets the minimum
length) whenever the gap is exceeded, and once more at the end. -/
def bundleWalk (min_bundle_length_km max_gap_km : ℚ) (hwy : String) :
    List RoadSection → List RoadSection → List BundleOpportunity → ℕ →
    List BundleOpportunity × ℕ
  | [], current_bundle, bundles, counter =>
    if 2 ≤ current_bundle.length then
      let dir := match current_bundle with
        | c :: _ => c.direction
        | [] => ""
      let b := create_bundle current_bundle hwy dir counter
      if min_bundle_length_km ≤ b.total_length_km then
        (bundles ++ [b], counter + 1)
      else (bundles, counter)
    else (bundles, counter)
  | s :: rest, current_bundle, bundles, counter =>
    match current_bundle with
    | [] => bundleWalk min_bundle_length_km max_gap_km hwy rest [s] bundles counter
    | c :: cs =>
      let last := (c :: cs).getLast (List.cons_ne_nil c cs)
      let gap := s.km_start - last.km_end
      if gap ≤ max_gap_km then
        bundleWalk min_bundle_length_km max_gap_km hwy rest
          ((c :: cs) ++ [s]) bundles counter
      else
        if 2 ≤ (c :: cs).length then
          let b := create_bundle (c :: cs) hwy c.direction counter
          if min_bundle_length_km ≤ b.total_length_km then
            bundleWalk min_bundle_length_km max_gap_km hwy rest [s]
              (bundles ++ [b]) (counter + 1)
          else bundleWalk min_bundle_length_km max_gap_km hwy rest [s] bundles counter
        else bundleWalk min_bundle_length_km max_gap_km hwy rest [s] bundles counter

/-- Per-highway processing of `find_bundle_opportunities` (lines
276–327): sort by `km_start`, filter to repair-worthy sections (PCI < 70,
relaxed to < 80 when fewer than two qualify), skip highways with fewer
than two candidates, then walk. -/
def processHighway (min_bundle_length_km max_gap_km : ℚ) (hwy : String)
    (section_list : List RoadSection) (counter : ℕ) :
    List BundleOpportunity × ℕ :=
  let sorted := stableSort (fun a b => decide (a.km_start < b.km_start)) section_list
  let repair_sections := sorted.filter (·.needs_repair)
  let repair_sections :=
    if repair_sections.length < 2 then sorted.filter (fun s => decide (s.pci < 80))
    else repair_sections
  if repair_sections.length < 2 then ([], counter)
  else bundleWalk min_bundle_length_km max_gap_km hwy repair_sections [] [] counter

/-- `find_bundle_opportunities`, lines 244–332, from the fetched section
list (the data fetch `_get_road_sections` is an external collaborator). -/
def find_bundle_opportunities (sections : List RoadSection)
    (min_bundle_length_km max_gap_km : ℚ) : List BundleOpportunity :=
  let grouped := groupByKey (fun s => s.highway) sections
  let walked := grouped.foldl
    (fun (acc : List BundleOpportunity × ℕ) g =>
      let r := processHighway min_bundle_length_km max_gap_km g.1 g.2 acc.2
      (acc.1 ++ r.1, r.2))
    ([], 1)
  stableSort (fun a b => decide (b.savings < a.savings)) walked.1

theorem create_bundle_sections (sections : List RoadSection) (hwy dir : String)
    (n : ℕ) : (create_bundle sections hwy dir n).sections = sections := rfl

theorem bundleWalk_invariant (minL maxG : ℚ) (hwy : String) :
    ∀ (rs current : List RoadSection) (bundles : List BundleOpportunity)
      (counter : ℕ),
      (∀ b ∈ bundles, 2 ≤ b.sections.length ∧ minL ≤ b.total_length_km) →
      ∀ b ∈ (bundleWalk minL maxG hwy rs current bundles counter).1,
        2 ≤ b.sections.length ∧ minL ≤ b.total_length_km := by
  intro rs
  induction rs with
  | nil =>
    intro current bundles counter hinv b hb
    simp only [bundleWalk] at hb
    split_ifs at hb with h2 hlen
    · rcases List.mem_append.mp hb with h | h
      · exact hinv b h
      · rw [List.mem_singleton] at h
        subst h
        exact ⟨by rw [create_bundle_sections]; exact h2, hlen⟩
    · exact hinv b hb
    · exact hinv b hb
  | cons s rest ih =>
    intro current bundles counter hinv b hb
    cases current with
    | nil =>
      simp only [bundleWalk] at hb
      exact ih [s] bundles counter hinv b hb
    | cons c cs =>
      simp only [bundleWalk] at hb
      split_ifs at hb with hgap h2 hlen
      · exact ih _ bundles counter hinv b hb
      · refine ih [s] _ _ ?_ b hb
        intro b' hb'
        rcases List.mem_append.mp hb' with h | h
        · exact hinv b' h
        · rw [List.mem_singleton] at h
          subst h
          exact ⟨by rw [create_bundle_sections]; exact h2, hlen⟩
      · exact ih [s] bundles counter hinv b hb
      · exact ih [s] bundles counter hinv b hb

theorem processHighway_invariant (minL maxG : ℚ) (hwy : String)
    (section_list : List RoadSection) (counter : ℕ) :
    ∀ b ∈ (processHighway minL maxG hwy section_list counter).1,
      2 ≤ b.sections.length ∧ minL ≤ b.total_length_km := by
  intro b hb
  simp only [processHighway] at hb
  split_ifs at hb <;>
    first
      | simpa using hb
      | exact bundleWalk_invariant minL maxG hwy _ [] [] counter (by simp) b hb

/-- C8.  Every bundle emitted by `find_bundle_opportunities` contains at
least two sections and its recorded `total_length_km` meets the
`min_bundle_length_km` parameter. -/
theorem find_bundle_opportunities_min (sections : List RoadSection)
    (min_bundle_length_km max_gap_km : ℚ) :
    ∀ b ∈ find_bundle_opportunities sections min_bundle_length_km max_gap_km,
      2 ≤ b.sections.length ∧ min_bundle_length_km ≤ b.total_length_km := by
  have hfold : ∀ (gs : List (String × List RoadSection))
      (acc : List BundleOpportunity × ℕ),
      (∀ b ∈ acc.1, 2 ≤ b.sections.length ∧ min_bundle_length_km ≤ b.total_length_km) →
      ∀ b ∈ (gs.foldl
        (fun (acc : List BundleOpportunity × ℕ) g =>
          let r := processHighway min_bundle_length_km max_gap_km g.1 g.2 acc.2
          (acc.1 ++ r.1, r.2)) acc).1,
        2 ≤ b.sections.length ∧ min_bundle_length_km ≤ b.total_length_km := by
    intro gs
    induction gs with
    | nil => intro acc hacc b hb; exact hacc b hb
    | cons g gs' ih =>
      intro acc hacc b hb
      rw [List.foldl_cons] at hb
      refine ih _ ?_ b hb
      intro b' hb'
      rcases List.mem_append.mp hb' with h | h
      · exact hacc b' h
      · exact processHighway_invariant min_bundle_length_km max_gap_km g.1 g.2 acc.2 b' h
  intro b hb
  simp only [find_bundle_opportunities] at hb
  rw [mem_stableSort] at hb
  exact hfold _ ([], 1) (by simp) b hb

/-- Witness for C8, the spec's bundling scenario: two 12 km sections of
the same highway with PCI 55 and a 5 km gap produce a bundle, and it has
two sections and at least 10 km of length. -/
theorem find_bundle_opportunities_min_witness :
    2 ≤ ((find_bundle_opportunities
        [⟨"Hwy 7", "EB", "A", "B", 0, 12, 55, "Poor", 10, 2, "AC", 15000⟩,
         ⟨"Hwy 7", "EB", "B", "C", 17, 29, 55, "Poor", 10, 2, "AC", 15000⟩]
        10 25).head!).sections.length
    ∧ (10 : ℚ) ≤ ((find_bundle_opportunities
        [⟨"Hwy 7", "EB", "A", "B", 0, 12, 55, "Poor", 10, 2, "AC", 15000⟩,
         ⟨"Hwy 7", "EB", "B", "C", 17, 29, 55, "Poor", 10, 2, "AC", 15000⟩]
        10 25).head!).total_length_km :=
  find_bundle_opportunities_min
    [⟨"Hwy 7", "EB", "A", "B", 0, 12, 55, "Poor", 10, 2, "AC", 15000⟩,
     ⟨"Hwy 7", "EB", "B", "C", 17, 29, 55, "Poor", 10, 2, "AC", 15000⟩]
    10 25 _
    (List.head!_mem_self (by
      norm_num [find_bundle_opportunities, groupByKey, addToGroupBy, processHighway,
        bundleWalk, create_bundle, stableSort, stableInsert, RoadSection.needs_repair,
        RoadSection.length_km, pyRound, roundHalfEven, mem_stableSort]))

/-- `estimate_truck_percent`, lines 162–184. -/
def estimate_truck_percent (aadt : ℤ) (direction : String) : ℚ :=
  let base_percent : ℚ :=
    if 50000 ≤ aadt then 30
    else if 30000 ≤ aadt then 35
    else if 15000 ≤ aadt then 40
    else 25
  let direction_upper := direction.toUpper
  if direction_upper ∈ (["W", "WB", "WEST", "S", "SB", "SOUTH"] : List String) then
    base_percent + 8
  else if direction_upper ∈ (["E", "EB", "EAST", "N", "NB", "NORTH"] : List String) then
    base_percent
  else base_percent

/-- The `degradation_reason` strings of `analyze_directional_conditions`,
by template. -/
inductive DegradationReason where
  | similarConditions
  | higherTruckTraffic (dir : String) (t_worse t_other : ℚ)
  | differentPatterns
deriving DecidableEq, Inhabited

/-- The `recommendation` strings of `analyze_directional_conditions`, by
template. -/
inductive DirectionalRecommendation where
  | prioritizeSingleDirection (worse_dir : String) (potential_savings : ℚ)
  | monitorWorseDirection (worse_dir : String)
  | bundleBothDirections
deriving DecidableEq, Inhabited

/-- Whether a recommendation is the single-direction prioritized repair. -/
def isPrioritize : DirectionalRecommendation → Bool
  | DirectionalRecommendation.prioritizeSingleDirection _ _ => true
  | _ => false

/-- `DirectionalAnalysis` dataclass.  The `km_range` display string
`f"KM {min:.0f}-{max:.0f}"` is kept as its two numeric endpoints. -/
structure DirectionalAnalysis where
  highway : String
  km_range_min : ℚ
  km_range_max : ℚ
  direction_1 : String
  direction_1_sections : ℕ
  direction_1_avg_pci : ℚ
  direction_1_avg_iri : ℚ
  direction_1_avg_dmi : ℚ
  direction_1_truck_percent : ℚ
  direction_2 : String
  direction_2_sections : ℕ
  direction_2_avg_pci : ℚ
  direction_2_avg_iri : ℚ
  direction_2_avg_dmi : ℚ
  direction_2_truck_percent : ℚ
  pci_difference : ℚ
  worse_direction : String
  degradation_reason : DegradationReason
  recommendation : DirectionalRecommendation
  single_direction_repair_cost : ℚ
  both_directions_repair_cost : ℚ
  potential_savings : ℚ
deriving DecidableEq, Inhabited

/-- The `calc_averages` closure (lines 426–433): average PCI, IRI, DMI and
estimated truck share of a direction's sections (zeros for no sections). -/
def calcAverages (secs : List RoadSection) : ℚ × ℚ × ℚ × ℚ :=
  if secs = [] then (0, 0, 0, 0)
  else
    ((secs.map (·.pci)).sum / secs.length,
     (secs.map (·.iri)).sum / secs.length,
     (secs.map (·.dmi)).sum / secs.length,
     (secs.map (fun s => estimate_truck_percent s.aadt s.direction)).sum / secs.length)

/-- The per-pair body of `analyze_directional_conditions` (lines 435–496),
once the two main directions are chosen. -/
def mkDirectionalAnalysis (highway : String) (dir_1 : String)
    (sections_1 : List RoadSection) (dir_2 : String)
    (sections_2 : List RoadSection) : DirectionalAnalysis :=
  let a1 := calcAverages sections_1
  let a2 := calcAverages sections_2
  let pci_1 := a1.1
  let truck_1 := a1.2.2.2
  let pci_2 := a2.1
  let truck_2 := a2.2.2.2
  let pci_diff := |pci_1 - pci_2|
  let worse_dir := if pci_1 < pci_2 then dir_1 else dir_2
  let worse_pci := min pci_1 pci_2
  let reason :=
    if pci_diff < 3 then DegradationReason.similarConditions
    else if truck_2 + 5 < truck_1 ∧ pci_1 < pci_2 then
      DegradationReason.higherTruckTraffic dir_1 truck_1 truck_2
    else if truck_1 + 5 < truck_2 ∧ pci_2 < pci_1 then
      DegradationReason.higherTruckTraffic dir_2 truck_2 truck_1
    else DegradationReason.differentPatterns
  let worse_sections := if pci_1 < pci_2 then sections_1 else sections_2
  let worse_length := ((worse_sections.filter (·.needs_repair)).map (·.length_km)).sum
  let single_dir_cost := worse_length * COST_PER_KM_BUNDLED + MOBILIZATION_COST
  let both_dir_cost := single_dir_cost * (19/10)
  let potential_savings := both_dir_cost - single_dir_cost
  let recommendation :=
    if 6 ≤ pci_diff ∧ worse_pci < 65 then
      DirectionalRecommendation.prioritizeSingleDirection worse_dir potential_savings
    else if 3 ≤ pci_diff then DirectionalRecommendation.monitorWorseDirection worse_dir
    else DirectionalRecommendation.bundleBothDirections
  let all_sections := sections_1 ++ sections_2
  { highway := highway
    km_range_min := listMinQ (all_sections.map (·.km_start))
    km_range_max := listMaxQ (all_sections.map (·.km_end))
    direction_1 := dir_1
    direction_1_sections := sections_1.length
    direction_1_avg_pci := pyRound 1 pci_1
    direction_1_avg_iri := pyRound 2 a1.2.1
    direction_1_avg_dmi := pyRound 1 a1.2.2.1
    direction_1_truck_percent := pyRound 0 truck_1
    direction_2 := dir_2
    direction_2_sections := sections_2.length
    direction_2_avg_pci := pyRound 1 pci_2
    direction_2_avg_iri := pyRound 2 a2.2.1
    direction_2_avg_dmi := pyRound 1 a2.2.2.1
    direction_2_truck_percent := pyRound 0 truck_2
    pci_difference := pyRound 1 pci_diff
    worse_direction := worse_dir
    degradation_reason := reason
    recommendation := recommendation
    single_direction_repair_cost := single_dir_cost
    both_directions_repair_cost := both_dir_cost
    potential_savings := potential_savings }

/-- `analyze_directional_conditions`, lines 392–498, from the fetched
section list: group by direction, take the two largest groups (stable by
first appearance), compare. -/
def analyze_directional_conditions (sections : List RoadSection)
    (highway : String) : List DirectionalAnalysis :=
  if sections = [] then []
  else
    match stableSort (fun a b => decide (b.2.length < a.2.length))
        (groupByKey (fun s => s.direction) sections) with
    | g1 :: g2 :: _ =>
      [mkDirectionalAnalysis highway g1.1 g1.2 g2.1 g2.2]
    | _ => []

/-- C9 as amended: the returned recommendation is the single-direction
prioritized repair exactly when the average-PCI gap between the two
compared directions is ≥ 6 *and* the worse direction's average PCI is
below 65. -/
theorem analyze_directional_prioritize_iff (sections : List RoadSection)
    (highway : String) :
    ∀ a ∈ analyze_directional_conditions sections highway,
      ∃ g1 g2 rest,
        stableSort (fun x y => decide (y.2.length < x.2.length))
            (groupByKey (fun s => s.direction) sections) = g1 :: g2 :: rest
        ∧ (isPrioritize a.recommendation = true
            ↔ 6 ≤ |(calcAverages g1.2).1 - (calcAverages g2.2).1|
              ∧ min (calcAverages g1.2).1 (calcAverages g2.2).1 < 65) := by
  intro a ha
  simp only [analyze_directional_conditions] at ha
  split_ifs at ha with hemp
  · simp at ha
  · cases hsort : stableSort (fun x y => decide (y.2.length < x.2.length))
        (groupByKey (fun s => s.direction) sections) with
    | nil => rw [hsort] at ha; simp at ha
    | cons g1 t =>
      cases t with
      | nil => rw [hsort] at ha; simp at ha
      | cons g2 rest =>
        rw [hsort] at ha
        simp only [List.mem_singleton] at ha
        subst ha
        refine ⟨g1, g2, rest, rfl, ?_⟩
        by_cases hcond : 6 ≤ |(calcAverages g1.2).1 - (calcAverages g2.2).1|
            ∧ min (calcAverages g1.2).1 (calcAverages g2.2).1 < 65
        · simp only [mkDirectionalAnalysis]
          rw [if_pos hcond]
          simp only [isPrioritize]
          exact iff_of_true (by simp) hcond
        · simp only [mkDirectionalAnalysis]
          rw [if_neg hcond]
          split_ifs <;> exact iff_of_false (by simp [isPrioritize]) hcond

/-- Counterexample to C9 as stated: averages 80 vs 72 give a PCI gap of
8 ≥ 6, yet the recommendation is the monitor message, not the prioritized
single-direction repair, because the worse direction's average (72) is not
below 65. -/
theorem analyze_directional_counterexample :
    (analyze_directional_conditions
        [⟨"Hwy 7", "EB", "A", "B", 0, 10, 80, "Good", 10, 2, "AC", 15000⟩,
         ⟨"Hwy 7", "WB", "A", "B", 0, 10, 72, "Fair", 10, 2, "AC", 15000⟩]
        "Hwy 7").map (fun a => (a.pci_difference, isPrioritize a.recommendation))
      = [(8, false)] := by
  rw [analyze_directional_conditions]
  rw [if_neg (by simp)]
  norm_num [groupByKey, addToGroupBy, stableSort, stableInsert]
  norm_num [mkDirectionalAnalysis, calcAverages, isPrioritize, pyRound,
    roundHalfEven]

/-- Witness for the amended C9: averages 80 vs 60 (gap 20, worse 60 < 65)
make the prioritize-or-not equivalence concrete on a real analysis. -/
theorem analyze_directional_prioritize_iff_witness :
    ∃ g1 g2 rest,
      stableSort (fun x y => decide (y.2.length < x.2.length))
          (groupByKey (fun s => s.direction)
            [⟨"Hwy 7", "EB", "A", "B", 0, 10, 80, "Good", 10, 2, "AC", 15000⟩,
             ⟨"Hwy 7", "WB", "A", "B", 0, 10, 60, "Poor", 10, 2, "AC", 15000⟩])
        = g1 :: g2 :: rest
      ∧ (isPrioritize ((analyze_directional_conditions
            [⟨"Hwy 7", "EB", "A", "B", 0, 10, 80, "Good", 10, 2, "AC", 15000⟩,
             ⟨"Hwy 7", "WB", "A", "B", 0, 10, 60, "Poor", 10, 2, "AC", 15000⟩]
            "Hwy 7").head!).recommendation = true
          ↔ 6 ≤ |(calcAverages g1.2).1 - (calcAverages g2.2).1|
            ∧ min (calcAverages g1.2).1 (calcAverages g2.2).1 < 65) :=
  analyze_directional_prioritize_iff
    [⟨"Hwy 7", "EB", "A", "B", 0, 10, 80, "Good", 10, 2, "AC", 15000⟩,
     ⟨"Hwy 7", "WB", "A", "B", 0, 10, 60, "Poor", 10, 2, "AC", 15000⟩]
    "Hwy 7" _
    (List.head!_mem_self (by
      rw [analyze_directional_conditions, if_neg (by simp)]
      norm_num [groupByKey, addToGroupBy, stableSort, stableInsert]))

/-! ## PCI-0 handling (`forecast_degradation` and the winter analyzer) -/

/-- `DegradationForecast` dataclass (the `section` display string
`f"{section_from} - {section_to}"` is kept as its two parts). -/
structure DegradationForecast where
  highway : Option String
  section_from : Option String
  section_to : Option String
  current_pci : ℚ
  predicted_pci : List ℚ
  years_to_critical : ℕ
  optimal_intervention_year : ℕ
  optimal_intervention_pci : ℚ
  estimated_cost_now : ℚ
  estimated_cost_optimal : ℚ
  estimated_cost_delayed : ℚ
  cost_savings_optimal : ℚ
  degradation_rate : ℚ
deriving DecidableEq

/-- The per-road body of `forecast_degradation` (lines 754–796): extract
fields with `x or default` Python truthiness, forecast, find the critical
year and the optimal intervention.  `climate_zone` is the per-province
`PROVINCE_CLIMATE_ZONES` lookup done by the caller. -/
def forecastForRoad (road : RoadConditionRecord) (climate_zone : ClimateZone)
    (years : ℕ) : DegradationForecast :=
  let current_pci := orElseQ road.pci 70
  let pavement_type := orElseS road.pavement_type "AC"
  let aadt := orElseZ road.aadt 15000
  let pavement_age := orElseZ road.pavement_age 10
  let pci_forecast :=
    forecast_pci current_pci years pavement_type climate_zone (some aadt) (some pavement_age)
  let ytc := years_to_critical pci_forecast years
  let foi := find_optimal_intervention pci_forecast current_pci
  let rate := calculate_degradation_rate current_pci pavement_type climate_zone
    (some aadt) (some pavement_age) 1
  { highway := road.highway
    section_from := road.section_from
    section_to := road.section_to
    current_pci := current_pci
    predicted_pci := pci_forecast
    years_to_critical := ytc
    optimal_intervention_year := foi.1
    optimal_intervention_pci := pyRound 1 foi.2.1
    estimated_cost_now := pyRound 0 foi.2.2.1
    estimated_cost_optimal := pyRound 0 foi.2.2.2.1
    estimated_cost_delayed := pyRound 0 foi.2.2.2.2
    cost_savings_optimal := pyRound 0 (foi.2.2.2.2 - foi.2.2.2.1)
    degradation_rate := pyRound 2 rate }

/-- `WinterRiskLevel` enum. -/
inductive WinterRiskLevel where
  | severe
  | high
  | moderate
  | low
deriving DecidableEq

/-- `PAVEMENT_VULNERABILITY.get(pavement_type, 1.0)`. -/
def PAVEMENT_VULNERABILITY (pt : String) : ℚ :=
  if pt = "AC" then 13/10
  else if pt = "PCC" then 7/10
  else if pt = "COMP" then 1
  else if pt = "ST" then 3/2
  else if pt = "GRAVEL" then 1/2
  else 1

/-- `get_pci_vulnerability_factor` (winter service, lines 175–191). -/
def get_pci_vulnerability_factor (pci : ℚ) : ℚ :=
  if 80 ≤ pci then 3/5
  else if 70 ≤ pci then 9/10
  else if 60 ≤ pci then 7/5
  else if 50 ≤ pci then 6/5
  else if 40 ≤ pci then 1
  else 4/5

/-- `get_traffic_load_factor` (winter service; a true `is None` check,
not truthiness). -/
def get_traffic_load_factor (aadt : Option ℤ) : ℚ :=
  match aadt with
  | none => 1
  | some a =>
    if 50000 ≤ a then 7/5
    else if 30000 ≤ a then 6/5
    else if 15000 ≤ a then 1
    else if 5000 ≤ a then 9/10
    else 4/5

/-- `get_drainage_factor` (winter service; `is not None` defaults). -/
def get_drainage_factor (dmi iri : Option ℚ) : ℚ :=
  let d := dmi.getD 10
  let i := iri.getD 2
  let distress_score := d / 50 + i / 5
  if 3/2 < distress_score then 3/2
  else if 1 < distress_score then 6/5
  else if 1/2 < distress_score then 1
  else 4/5

/-- `calculate_winter_damage_risk`, lines 228–271: returns
`(risk_score, expected_pci_loss)`. -/
def calculate_winter_damage_risk (current_pci : ℚ) (freeze_thaw_cycles : ℤ)
    (pavement_vulnerability traffic_load_factor drainage_factor : ℚ) : ℚ × ℚ :=
  let condition_vulnerability := (100 - current_pci) / 100
  let freeze_thaw_factor := (freeze_thaw_cycles : ℚ) / 50
  let raw_risk := condition_vulnerability * freeze_thaw_factor
    * pavement_vulnerability * traffic_load_factor * drainage_factor * 100
  let risk_score := min 100 (max 0 (raw_risk * 2))
  let base_loss := 3 + risk_score / 100 * 12
  (risk_score, pyRound 1 (base_loss * pavement_vulnerability))

/-- `get_risk_level`. -/
def get_risk_level (risk_score expected_pci_loss : ℚ) : WinterRiskLevel :=
  if 10 < expected_pci_loss ∨ 75 < risk_score then WinterRiskLevel.severe
  else if 7 < expected_pci_loss ∨ 55 < risk_score then WinterRiskLevel.high
  else if 4 < expected_pci_loss ∨ 35 < risk_score then WinterRiskLevel.moderate
  else WinterRiskLevel.low

/-- `get_pci_condition` (winter/corridor label thresholds). -/
def get_pci_condition (pci : ℚ) : String :=
  if 80 ≤ pci then "Good"
  else if 60 ≤ pci then "Fair"
  else if 40 ≤ pci then "Poor"
  else "Critical"

/-- The `(recommendation, recommended_action)` string pairs of
`get_recommendation`, by template. -/
inductive WinterRecommendation where
  | urgentCrackSealing (post_condition : String)
  | highPriorityTreatment
  | preWinterStronglyRecommended
  | monitorScheduleSpring
  | standardMonitoring
deriving DecidableEq

/-- `get_recommendation`, lines 298–329. -/
def get_recommendation (risk_level : WinterRiskLevel) (current_pci : ℚ)
    (post_winter_pci : ℚ) (crosses_threshold : Bool) : WinterRecommendation :=
  match risk_level with
  | WinterRiskLevel.severe =>
    if crosses_threshold then
      WinterRecommendation.urgentCrackSealing (get_pci_condition post_winter_pci)
    else WinterRecommendation.highPriorityTreatment
  | WinterRiskLevel.high => WinterRecommendation.preWinterStronglyRecommended
  | WinterRiskLevel.moderate => WinterRecommendation.monitorScheduleSpring
  | WinterRiskLevel.low => WinterRecommendation.standardMonitoring

/-- `WinterVulnerability` dataclass (the `threshold_crossed` display
string `f"{cur}→{post}"` is derivable from the two condition fields and
`crosses_threshold`). -/
structure WinterVulnerability where
  highway : Option String
  direction : Option String
  section_from : Option String
  section_to : Option String
  km_start : ℚ
  km_end : ℚ
  current_pci : ℚ
  current_condition : String
  pavement_type : String
  climate_zone : String
  freeze_thaw_cycles : ℤ
  pci_vulnerability_factor : ℚ
  pavement_vulnerability_factor : ℚ
  traffic_load_factor : ℚ
  drainage_factor : ℚ
  winter_damage_risk_score : ℚ
  risk_level : WinterRiskLevel
  expected_pci_loss : ℚ
  post_winter_pci : ℚ
  post_winter_condition : String
  crosses_threshold : Bool
  recommendation : WinterRecommendation
  pre_winter_cost : ℚ
  spring_repair_cost : ℚ
  cost_savings : ℚ
  roi : ℚ
deriving DecidableEq

/-- The per-road body of `analyze_winter_vulnerability` (lines 373–460).
`freeze_thaw` and `climate_zone` are the per-province
`FREEZE_THAW_CYCLES` / `CLIMATE_ZONES` lookups done before the loop. -/
def winterVulnForRoad (road : RoadConditionRecord) (freeze_thaw : ℤ)
    (climate_zone : String) : WinterVulnerability :=
  let current_pci := orElseQ road.pci 70
  let pavement_type := orElseS road.pavement_type "AC"
  let pci_vuln := get_pci_vulnerability_factor current_pci
  let pavement_vuln := PAVEMENT_VULNERABILITY pavement_type
  let traffic_factor := get_traffic_load_factor road.aadt
  let drainage_factor := get_drainage_factor road.dmi road.iri
  let rl := calculate_winter_damage_risk current_pci freeze_thaw pavement_vuln
    traffic_factor drainage_factor
  let risk_score := rl.1
  let expected_loss := rl.2
  let risk_level := get_risk_level risk_score expected_loss
  let post_winter_pci := max 0 (current_pci - expected_loss)
  let current_condition := get_pci_condition current_pci
  let post_winter_condition := get_pci_condition post_winter_pci
  let crosses_threshold := decide (current_condition ≠ post_winter_condition)
  let recommendation := get_recommendation risk_level current_pci post_winter_pci
    crosses_threshold
  let km_length := orElseQ road.km_end 10 - orElseQ road.km_start 0
  let km_length := max 1 |km_length|
  let pre_winter_cost :=
    match risk_level with
    | WinterRiskLevel.severe => 45000 * km_length
    | WinterRiskLevel.high => 35000 * km_length
    | WinterRiskLevel.moderate => 20000 * km_length
    | WinterRiskLevel.low => 10000 * km_length
  let spring_repair_cost :=
    match risk_level with
    | WinterRiskLevel.severe => 320000 * km_length
    | WinterRiskLevel.high => 180000 * km_length
    | WinterRiskLevel.moderate => 80000 * km_length
    | WinterRiskLevel.low => 30000 * km_length
  let cost_savings := spring_repair_cost - pre_winter_cost
  let roi := if 0 < pre_winter_cost then cost_savings / pre_winter_cost else 0
  { highway := road.highway
    direction := road.direction
    section_from := road.section_from
    section_to := road.section_to
    km_start := orElseQ road.km_start 0
    km_end := orElseQ road.km_end 0
    current_pci := current_pci
    current_condition := current_condition
    pavement_type := pavement_type
    climate_zone := climate_zone
    freeze_thaw_cycles := freeze_thaw
    pci_vulnerability_factor := pyRound 2 pci_vuln
    pavement_vulnerability_factor := pyRound 2 pavement_vuln
    traffic_load_factor := pyRound 2 traffic_factor
    drainage_factor := pyRound 2 drainage_factor
    winter_damage_risk_score := pyRound 1 risk_score
    risk_level := risk_level
    expected_pci_loss := expected_loss
    post_winter_pci := pyRound 1 post_winter_pci
    post_winter_condition := post_winter_condition
    crosses_threshold := crosses_threshold
    recommendation := recommendation
    pre_winter_cost := pre_winter_cost
    spring_repair_cost := spring_repair_cost
    cost_savings := cost_savings
    roi := pyRound 1 roi }

theorem orElseQ_zero (d : ℚ) : orElseQ (some 0) d = d := by simp [orElseQ]

theorem orElseQ_none (d : ℚ) : orElseQ none d = d := rfl

/-- C10.  A road record whose PCI is present but 0 is treated by the
degradation forecaster and the winter analyzer exactly as if PCI were
missing: both apply `road.get("pci") or 70`, so the outputs coincide with
the no-PCI record's (and a PCI of 0 never reaches either model). -/
theorem pci_zero_treated_as_missing (road : RoadConditionRecord)
    (climate_zone : ClimateZone) (years : ℕ) (freeze_thaw : ℤ)
    (climate_zone_name : String) :
    forecastForRoad { road with pci := some 0 } climate_zone years
      = forecastForRoad { road with pci := none } climate_zone years
    ∧ winterVulnForRoad { road with pci := some 0 } freeze_thaw climate_zone_name
      = winterVulnForRoad { road with pci := none } freeze_thaw climate_zone_name
    ∧ orElseQ (some 0) 70 = (70 : ℚ)
    ∧ orElseQ none 70 = (70 : ℚ) := by
  refine ⟨?_, ?_, orElseQ_zero 70, orElseQ_none 70⟩ <;>
    simp [forecastForRoad, winterVulnForRoad, orElseQ]
